import Mathlib

/-
Verification of the SMC (Smart Money Concepts) strategy core of the
trading_app repository, a shallow embedding of
src/python/signal_scanner/strategies/smc.py, strategies/base.py and types.py.

Conventions of the embedding:
* Python floats are modelled as exact rationals.  All comparisons in the
  source are exact comparisons of computed values, so no rounding model is
  needed; where Python rounds (round, int, string formatting) we implement
  the Python semantics explicitly (pyRound is round-half-to-even, pyInt
  truncates toward zero).
* Python lists are Lean lists; negative indexing xs[-1] and xs[-2] become
  getLastD and dropLast.getLastD; xs[-n:] becomes lastN n.
* Mutation-free transcription: each dataclass is a structure, in-place
  updates become construction of the updated value.
* Wall-clock reads of time.time() and the uuid4 draw inside
  SMCStrategy.analyze are made explicit parameters (tStart, tNow, uuidHex),
  since the embedded functions are pure.
-/

/-- Python round(): round half to even (banker's rounding), as used by the
source for clarity scores and formatted reasoning strings. -/
def pyRound (q : ℚ) : ℤ :=
  let f : ℤ := ⌊q⌋
  let r : ℚ := q - (f : ℚ)
  if r < 1/2 then f
  else if 1/2 < r then f + 1
  else if f % 2 = 0 then f else f + 1

/-- Python int() on a float: truncation toward zero. -/
def pyInt (q : ℚ) : ℤ :=
  if 0 ≤ q then ⌊q⌋ else -⌊-q⌋

/-- Python max() over a nonempty list of rationals (0 on the empty list,
which the source never reaches on the guarded paths). -/
def pyMax : List ℚ → ℚ
  | [] => 0
  | x :: xs => xs.foldl max x

/-- Python min() over a nonempty list of rationals (0 on the empty list,
which the source never reaches on the guarded paths). -/
def pyMin : List ℚ → ℚ
  | [] => 0
  | x :: xs => xs.foldl min x

/-- Python xs[-n:]: the last n elements of a list (the whole list when it is
shorter than n). -/
def lastN (n : ℕ) (l : List α) : List α := l.drop (l.length - n)

/-- Left-pad a numeral string with zeros to a given width. -/
def padZeros (w : ℕ) (s : String) : String :=
  if s.length < w then String.mk (List.replicate (w - s.length) '0') ++ s else s

/-- Python format specifier :.df for a nonnegative number of decimals d,
round-half-even like CPython float formatting on these magnitudes. -/
def fmtFixed (d : ℕ) (q : ℚ) : String :=
  let scale : ℚ := ((10 : ℕ) ^ d : ℕ)
  let n : ℤ := pyRound (q * scale)
  let sign : String := if n < 0 then "-" else ""
  let m : ℤ := if n < 0 then -n else n
  let base : ℤ := ((10 : ℕ) ^ d : ℕ)
  if d = 0 then sign ++ toString m
  else sign ++ toString (m / base) ++ "." ++ padZeros d (toString (m % base))

-- Enumerations from types.py.

/-- SignalDirection enum of types.py. -/
inductive SignalDirection where
  | buy
  | sell
deriving DecidableEq, Repr

/-- The .value string of a SignalDirection. -/
def SignalDirection.value : SignalDirection → String
  | .buy => "buy"
  | .sell => "sell"

/-- TrendDirection enum of types.py. -/
inductive TrendDirection where
  | bullish
  | bearish
  | sideways
deriving DecidableEq, Repr

/-- The .value string of a TrendDirection. -/
def TrendDirection.value : TrendDirection → String
  | .bullish => "bullish"
  | .bearish => "bearish"
  | .sideways => "sideways"

/-- ZoneType enum of types.py. -/
inductive ZoneType where
  | demand
  | supply
deriving DecidableEq, Repr

/-- The .value string of a ZoneType. -/
def ZoneType.value : ZoneType → String
  | .demand => "demand"
  | .supply => "supply"

/-- EntryType enum of types.py. -/
inductive EntryType where
  | zone_touch
  | choch
  | liquidity_sweep
  | fvg
deriving DecidableEq, Repr

/-- The .value string of an EntryType. -/
def EntryType.value : EntryType → String
  | .zone_touch => "zone_touch"
  | .choch => "choch"
  | .liquidity_sweep => "liquidity_sweep"
  | .fvg => "fvg"

/-- SwingType enum of types.py (HH, HL, LH, LL). -/
inductive SwingType where
  | HH
  | HL
  | LH
  | LL
deriving DecidableEq, Repr

/-- Zone strength, the Literal strong | moderate | weak of types.py. -/
inductive Strength where
  | strong
  | moderate
  | weak
deriving DecidableEq, Repr

/-- Candle dataclass of types.py: OHLCV candle data. -/
structure Candle where
  timestamp : ℤ
  «open» : ℚ
  high : ℚ
  low : ℚ
  close : ℚ
  volume : ℚ
deriving DecidableEq, Repr

/-- Candle used where the source indexes a list that its guards keep
nonempty; its fields are never read on reachable paths. -/
def defaultCandle : Candle := ⟨0, 0, 0, 0, 0, 0⟩

namespace Candle

/-- Candle.is_bullish property: close strictly above open. -/
def is_bullish (c : Candle) : Bool := c.«open» < c.close

/-- Candle.is_bearish property: close strictly below open. -/
def is_bearish (c : Candle) : Bool := c.close < c.«open»

/-- Candle.body_size property. -/
def body_size (c : Candle) : ℚ := |c.close - c.«open»|

/-- Candle.total_range property. -/
def total_range (c : Candle) : ℚ := c.high - c.low

/-- Candle.upper_wick property. -/
def upper_wick (c : Candle) : ℚ := c.high - max c.«open» c.close

/-- Candle.lower_wick property. -/
def lower_wick (c : Candle) : ℚ := min c.«open» c.close - c.low

/-- Candle.body_ratio property: 0 on a zero total range, else
body_size / total_range. -/
def body_ratio (c : Candle) : ℚ :=
  if c.total_range = 0 then 0 else c.body_size / c.total_range

end Candle

/-- Zone dataclass of types.py: a supply or demand zone.  The dataclass
defaults are origin_candle_index = 0, touches = 0, mitigated = False and
created_at = 0; constructions that omit them pass those values explicitly
here. -/
structure Zone where
  top_price : ℚ
  bottom_price : ℚ
  type : ZoneType
  strength : Strength
  origin_candle_index : ℤ
  touches : ℕ
  mitigated : Bool
  created_at : ℤ
deriving DecidableEq, Repr

namespace Zone

/-- Zone.mid_price property. -/
def mid_price (z : Zone) : ℚ := (z.top_price + z.bottom_price) / 2

/-- Zone.zone_size property. -/
def zone_size (z : Zone) : ℚ := z.top_price - z.bottom_price

/-- Zone.price_in_zone method. -/
def price_in_zone (z : Zone) (price : ℚ) : Bool :=
  z.bottom_price ≤ price ∧ price ≤ z.top_price

/-- Zone.overlaps_with method: ranges intersect. -/
def overlaps_with (z other : Zone) : Bool :=
  ¬(z.top_price < other.bottom_price ∨ z.bottom_price > other.top_price)

/-- Zone.get_age_hours method: 0 when created_at is the 0 default, else the
elapsed milliseconds converted to hours. -/
def get_age_hours (z : Zone) (current_timestamp : ℤ) : ℚ :=
  if z.created_at = 0 then 0
  else ((current_timestamp - z.created_at : ℤ) : ℚ) / (1000 * 60 * 60)

/-- Zone.freshness_score method with its max_age_hours argument (the source
default is 168). -/
def freshness_score (z : Zone) (current_timestamp : ℤ) (max_age_hours : ℚ) : ℚ :=
  let age := z.get_age_hours current_timestamp
  if max_age_hours ≤ age then 0 else 1 - age / max_age_hours

end Zone

/-- SwingPoint dataclass of types.py.  The dataclass defaults are
timestamp = 0, swing_type = None and swing_size = 0; constructions that omit
them pass those values explicitly here. -/
structure SwingPoint where
  price : ℚ
  index : ℤ
  is_high : Bool
  timestamp : ℤ
  swing_type : Option SwingType
  swing_size : ℚ
deriving DecidableEq, Repr

/-- MultiTimeframeData dataclass of types.py. -/
structure MultiTimeframeData where
  d1 : List Candle
  h4 : List Candle
  h2 : List Candle
  h1 : List Candle
  m30 : List Candle
  m15 : List Candle
  m5 : List Candle
  m3 : List Candle
  m1 : List Candle
deriving DecidableEq, Repr

/-- TimeframeSelection dataclass of types.py; the Timeframe Literal strings
are modelled as String. -/
structure TimeframeSelection where
  daily_context_tf : String
  major_zone_tf : String
  zone_identification_tf : String
  entry_refinement_tf : String
  daily_context_clarity : ℚ
  major_zone_clarity : ℚ
  zone_identification_clarity : ℚ
  entry_refinement_clarity : ℚ
  is_clear : Bool
  reasoning : List String
deriving DecidableEq, Repr

/-- EntrySetup dataclass of types.py. -/
structure EntrySetup where
  direction : SignalDirection
  entry_type : EntryType
  entry_price : ℚ
  stop_loss : ℚ
  take_profit : ℚ
  risk_reward_ratio : ℚ
  confidence : ℤ
  entry_zone : Zone
  confirmations : List String
deriving DecidableEq, Repr

/-- MarketContext dataclass of types.py (optional target fields keep their
None defaults where the source omits them). -/
structure MarketContext where
  h4_trend_direction : TrendDirection
  d1_trend_direction : TrendDirection
  nearest_supply_target : Option ℚ
  nearest_demand_target : Option ℚ
  swing_points : List SwingPoint
  unmitigated_supply : List Zone
  unmitigated_demand : List Zone
  reasoning : List String
deriving DecidableEq, Repr

/-- StrategySignal dataclass of types.py; the zones Dict is modelled as an
association list in insertion order. -/
structure StrategySignal where
  id : String
  strategy_id : String
  strategy_name : String
  symbol : String
  asset_class : String
  direction : SignalDirection
  entry_type : EntryType
  entry_price : ℚ
  stop_loss : ℚ
  take_profit : ℚ
  risk_reward_ratio : ℚ
  confidence : ℤ
  timeframe : String
  market_context : MarketContext
  entry_setup : EntrySetup
  zones : List (String × List Zone)
  reasoning : List String
  created_at : ℤ
  expires_at : ℤ
deriving DecidableEq, Repr

/-- StrategyResult dataclass of types.py. -/
structure StrategyResult where
  strategy_id : String
  signals : List StrategySignal
  pending_setups : List EntrySetup
  errors : List String
  analysis_time_ms : ℤ
deriving DecidableEq, Repr

/-- StrategyConfig dataclass of strategies/base.py. -/
structure StrategyConfig where
  id : String
  name : String
  description : String
  min_confidence : ℤ
  max_signals_per_scan : ℤ
  enabled : Bool
deriving DecidableEq, Repr

/-- InstrumentData dataclass of strategies/base.py. -/
structure InstrumentData where
  symbol : String
  asset_class : String
  current_price : ℚ
  data : MultiTimeframeData
deriving DecidableEq, Repr

/-- SMCClarityConfig dataclass of strategies/smc.py.  swing_lookback is a
window length and is modelled as a natural number. -/
structure SMCClarityConfig where
  min_clarity_score : ℤ
  min_zones_required : ℤ
  max_zones_for_clarity : ℤ
  min_swing_points_required : ℕ
  min_trend_consistency : ℚ
  min_candles : ℕ
  swing_lookback : ℕ
  zone_max_age_hours : ℚ
  use_recency_weighting : Bool
  use_swing_size_weighting : Bool
  filter_overlapping_zones : Bool
  min_rr_ratio : ℚ
  min_entry_confidence : ℤ
deriving DecidableEq, Repr

/-- DEFAULT_SMC_CONFIG of strategies/smc.py: the dataclass field defaults. -/
def DEFAULT_SMC_CONFIG : SMCClarityConfig :=
  ⟨60, 1, 5, 4, 3/5, 20, 5, 168, true, true, true, 3/2, 60⟩

/-- SMC_CONFIG of strategies/smc.py: the shipped StrategyConfig with
min_confidence 60 and max_signals_per_scan 3. -/
def SMC_CONFIG : StrategyConfig :=
  ⟨"smc_v2", "Smart Money Concepts",
   "Multi-timeframe SMC analysis with adaptive timeframe selection",
   60, 3, true⟩

/-- ClarityResult dataclass of strategies/smc.py. -/
structure ClarityResult where
  score : ℚ
  is_clear : Bool
  trend_consistency : ℚ
  zone_clarity : ℚ
  structure_clarity : ℚ
  reasoning : List String
deriving DecidableEq, Repr

/-- ZoneResult dataclass of strategies/smc.py. -/
structure ZoneResult where
  tradable_zones : List Zone
  unmitigated_supply : List Zone
  unmitigated_demand : List Zone
  all_zones : List Zone
  reasoning : List String
deriving DecidableEq, Repr

/-- RefinementResult dataclass of strategies/smc.py. -/
structure RefinementResult where
  refined_zone : Option Zone
  original_zone : Zone
  was_refined : Bool
  reasoning : List String
deriving DecidableEq, Repr

/-- EntryResult dataclass of strategies/smc.py. -/
structure EntryResult where
  has_valid_entry : Bool
  setup : Option EntrySetup
  reasoning : List String
deriving DecidableEq, Repr

-- Swing point detection and classification (smc.py).

/-- One candidate index of the detect_swing_points scan: the swing
high / swing low tests of candle i against the lookback window on both
sides (strict inequalities), appending the high before the low as the
source does. -/
def swingPointsAt (candles : List Candle) (lookback : ℕ) (i : ℕ) : List SwingPoint :=
  let c := candles.getD i defaultCandle
  let window := List.range' 1 lookback
  let is_swing_high := window.all fun j =>
    decide ((candles.getD (i - j) defaultCandle).high < c.high) &&
    decide ((candles.getD (i + j) defaultCandle).high < c.high)
  let is_swing_low := window.all fun j =>
    decide (c.low < (candles.getD (i - j) defaultCandle).low) &&
    decide (c.low < (candles.getD (i + j) defaultCandle).low)
  (if is_swing_high then [⟨c.high, (i : ℤ), true, c.timestamp, none, 0⟩] else []) ++
  (if is_swing_low then [⟨c.low, (i : ℤ), false, c.timestamp, none, 0⟩] else [])

/-- detect_swing_points of smc.py: empty below 2 * lookback + 1 candles,
else the swing points found at interior indices in order. -/
def detect_swing_points (candles : List Candle) (lookback : ℕ) : List SwingPoint :=
  if candles.length < lookback * 2 + 1 then []
  else
    (List.range' lookback (candles.length - 2 * lookback)).foldl
      (fun acc i => acc ++ swingPointsAt candles lookback i) []

/-- Running state of classify_swing_points: the four trackers seeded at
minus/plus infinity (none stands for the infinite seed) and the previous
high / low prices. -/
structure ClassifyState where
  last_higher_high : Option ℚ
  last_lower_low : Option ℚ
  last_higher_low : Option ℚ
  last_lower_high : Option ℚ
  prev_high_price : Option ℚ
  prev_low_price : Option ℚ
deriving DecidableEq, Repr

/-- p exceeds a tracker seeded at minus infinity. -/
def gtSeedNegInf (p : ℚ) : Option ℚ → Bool
  | none => true
  | some v => v < p

/-- p is below a tracker seeded at plus infinity. -/
def ltSeedPosInf (p : ℚ) : Option ℚ → Bool
  | none => true
  | some v => p < v

/-- One step of the classify_swing_points fold. -/
def classifyStep (st : ClassifyState) (sp : SwingPoint) : ClassifyState × SwingPoint :=
  if sp.is_high then
    let swing_size := match st.prev_high_price with
      | none => 0
      | some p => |sp.price - p|
    let st : ClassifyState :=
      ⟨st.last_higher_high, st.last_lower_low, st.last_higher_low,
       st.last_lower_high, some sp.price, st.prev_low_price⟩
    if gtSeedNegInf sp.price st.last_higher_high then
      (⟨some sp.price, st.last_lower_low, st.last_higher_low, some sp.price,
        st.prev_high_price, st.prev_low_price⟩,
       ⟨sp.price, sp.index, sp.is_high, sp.timestamp, some .HH, swing_size⟩)
    else if ltSeedPosInf sp.price st.last_lower_high then
      (⟨st.last_higher_high, st.last_lower_low, st.last_higher_low, some sp.price,
        st.prev_high_price, st.prev_low_price⟩,
       ⟨sp.price, sp.index, sp.is_high, sp.timestamp, some .LH, swing_size⟩)
    else
      (st, ⟨sp.price, sp.index, sp.is_high, sp.timestamp, some .LH, swing_size⟩)
  else
    let swing_size := match st.prev_low_price with
      | none => 0
      | some p => |sp.price - p|
    let st : ClassifyState :=
      ⟨st.last_higher_high, st.last_lower_low, st.last_higher_low,
       st.last_lower_high, st.prev_high_price, some sp.price⟩
    if ltSeedPosInf sp.price st.last_lower_low then
      (⟨st.last_higher_high, some sp.price, some sp.price, st.last_lower_high,
        st.prev_high_price, st.prev_low_price⟩,
       ⟨sp.price, sp.index, sp.is_high, sp.timestamp, some .LL, swing_size⟩)
    else if gtSeedNegInf sp.price st.last_higher_low then
      (⟨st.last_higher_high, st.last_lower_low, some sp.price, st.last_lower_high,
        st.prev_high_price, st.prev_low_price⟩,
       ⟨sp.price, sp.index, sp.is_high, sp.timestamp, some .HL, swing_size⟩)
    else
      (st, ⟨sp.price, sp.index, sp.is_high, sp.timestamp, some .HL, swing_size⟩)

/-- classify_swing_points of smc.py: the order-dependent fold labelling
each swing HH / HL / LH / LL and computing swing_size. -/
def classify_swing_points (swing_points : List SwingPoint) : List SwingPoint :=
  (swing_points.foldl
    (fun (acc : ClassifyState × List SwingPoint) sp =>
      let (st, c) := classifyStep acc.1 sp
      (st, acc.2 ++ [c]))
    (⟨none, none, none, none, none, none⟩, [])).2

/-- determine_trend of smc.py: trend from the swing type counts of the last
6 classified swings; Sideways below 4 swings.  The candles argument is
unused by the source body and kept for fidelity. -/
def determine_trend (candles : List Candle) (swing_points : List SwingPoint) :
    TrendDirection :=
  let _ := candles
  if swing_points.length < 4 then .sideways
  else
    let recent := lastN 6 swing_points
    let hh_count := recent.countP (·.swing_type = some .HH)
    let hl_count := recent.countP (·.swing_type = some .HL)
    let lh_count := recent.countP (·.swing_type = some .LH)
    let ll_count := recent.countP (·.swing_type = some .LL)
    if 1 ≤ hh_count ∧ 1 ≤ hl_count ∧ lh_count + ll_count < hh_count + hl_count then
      .bullish
    else if 1 ≤ ll_count ∧ 1 ≤ lh_count ∧ hh_count + hl_count < ll_count + lh_count then
      .bearish
    else .sideways

-- Clarity scoring components (smc.py).

/-- calculate_weighted_trend_consistency of smc.py. -/
def calculate_weighted_trend_consistency (swing_points : List SwingPoint)
    (trend : TrendDirection) (use_recency use_size_weight : Bool) : ℚ :=
  if swing_points.length < 4 then 0
  else
    let recent := lastN 8 swing_points
    let n : ℚ := (recent.length : ℚ)
    let max0 := pyMax (recent.map (·.swing_size))
    let max_swing_size := if max0 = 0 then 1 else max0
    let acc := recent.enum.foldl
      (fun (acc : ℚ × ℚ) (p : ℕ × SwingPoint) =>
        let i := p.1
        let swing := p.2
        let recency_weight : ℚ := if use_recency then ((i : ℚ) + 1) / n else 1
        let size_weight : ℚ :=
          if use_size_weight ∧ 0 < swing.swing_size then swing.swing_size / max_swing_size
          else 1
        let combined_weight := recency_weight * (1/2 + 1/2 * size_weight)
        let is_trend_aligned : Bool :=
          match trend with
          | .bullish => swing.swing_type = some .HH ∨ swing.swing_type = some .HL
          | .bearish => swing.swing_type = some .LL ∨ swing.swing_type = some .LH
          | .sideways => true
        ((if is_trend_aligned then acc.1 + combined_weight else acc.1),
         acc.2 + combined_weight))
      (0, 0)
    if 0 < acc.2 then acc.1 / acc.2 else 0

/-- calculate_swing_quality_score of smc.py: 0 below 2 swings, 0.5 when no
swing in the last 10 has positive size, else min(1, 0.5 + 0.5*consistency)
for consistency = 1 - (max - min) / max of the positive sizes. -/
def calculate_swing_quality_score (swing_points : List SwingPoint) : ℚ :=
  if swing_points.length < 2 then 0
  else
    let recent := lastN 10 swing_points
    let swing_sizes := (recent.filter (fun s => 0 < s.swing_size)).map (·.swing_size)
    if swing_sizes.isEmpty then 1/2
    else
      let max_size := pyMax swing_sizes
      let consistency :=
        if 0 < max_size then 1 - (pyMax swing_sizes - pyMin swing_sizes) / max_size
        else 1/2
      min 1 (1/2 + 1/2 * consistency)

/-- calculate_zone_clarity of smc.py. -/
def calculate_zone_clarity (zones : List Zone) (max_zones : ℤ) : ℚ :=
  if zones.length = 0 then 0
  else if max_zones < (zones.length : ℤ) then 3/10
  else
    let strong_zones := zones.countP (·.strength = .strong)
    let moderate_zones := zones.countP (·.strength = .moderate)
    let quality_score : ℚ :=
      ((strong_zones : ℚ) * 1 + (moderate_zones : ℚ) * (3/5)) / (zones.length : ℚ)
    let supply_zones := zones.countP (·.type = .supply)
    let demand_zones := zones.countP (·.type = .demand)
    let balance_score : ℚ := if 0 < supply_zones ∧ 0 < demand_zones then 1 else 1/2
    min 1 (quality_score * (7/10) + balance_score * (3/10))

/-- Whether a classified swing is of high kind (HH or LH), used by
calculate_structure_clarity. -/
def isHighKind (s : SwingPoint) : Bool :=
  s.swing_type = some SwingType.HH ∨ s.swing_type = some SwingType.LH

/-- calculate_structure_clarity of smc.py: alternation ratio of adjacent
pairs among the last 10 classified swings. -/
def calculate_structure_clarity (swing_points : List SwingPoint)
    (min_swings : ℕ) : ℚ :=
  if swing_points.length < min_swings then 0
  else
    let recent := lastN 10 swing_points
    let alternating_count :=
      (recent.zip (recent.drop 1)).countP fun p => isHighKind p.1 ≠ isHighKind p.2
    if 1 < recent.length then (alternating_count : ℚ) / ((recent.length : ℚ) - 1)
    else 0

-- Zone detection (smc.py).

/-- Sort order used by filter_overlapping_zones: the Python
sorted(key=(strength rank, -origin_candle_index), reverse=True) comparison.
a sorts no later than b when a has strictly higher strength rank, or equal
rank and an origin_candle_index no larger (the double negation of the key
with reverse=True puts the smallest origin, i.e. the oldest zone, first). -/
def strengthRank : Strength → ℤ
  | .strong => 3
  | .moderate => 2
  | .weak => 1

/-- The before-or-equal relation of the filter_overlapping_zones sort. -/
def zoneSortLE (a b : Zone) : Bool :=
  strengthRank b.strength < strengthRank a.strength ∨
    (strengthRank a.strength = strengthRank b.strength ∧
     a.origin_candle_index ≤ b.origin_candle_index)

/-- Insert into a sorted list, before the first element it sorts
no later than; together with sortZones this is a stable insertion sort
agreeing with Python sorted on the zoneSortLE order. -/
def insertZone (z : Zone) : List Zone → List Zone
  | [] => [z]
  | y :: ys => if zoneSortLE z y then z :: y :: ys else y :: insertZone z ys

/-- Stable sort of zones in the filter_overlapping_zones order. -/
def sortZones : List Zone → List Zone
  | [] => []
  | z :: zs => insertZone z (sortZones zs)

/-- One iteration of the greedy keep loop of filter_overlapping_zones:
keep a zone only if it overlaps none already kept. -/
def greedyStep (filtered : List Zone) (zone : Zone) : List Zone :=
  if filtered.any (fun existing => zone.overlaps_with existing) then filtered
  else filtered ++ [zone]

/-- The greedy keep loop of filter_overlapping_zones. -/
def greedyKeep (sorted_zones : List Zone) : List Zone :=
  sorted_zones.foldl greedyStep []

/-- filter_overlapping_zones of smc.py. -/
def filter_overlapping_zones (zones : List Zone) : List Zone :=
  if zones.length ≤ 1 then zones
  else greedyKeep (sortZones zones)

/-- The zone built at one index of the detect_zones scan (none when candle
i is not an impulse candle); mitigation scans the candles after i. -/
def zoneAt (candles : List Candle) (i : ℕ) : Option Zone :=
  let candle := candles.getD i defaultCandle
  let prev_candle := candles.getD (i - 1) defaultCandle
  if candle.body_ratio < 3/5 then none
  else if ¬ (prev_candle.body_size * (3/2) < candle.body_size) then none
  else if candle.is_bullish then
    let bottom := min prev_candle.low (candles.getD (i - 2) defaultCandle).low
    let mitigated := (candles.drop (i + 1)).any fun c => decide (c.low < bottom)
    some ⟨prev_candle.high, bottom, .demand,
          if 7/10 < candle.body_ratio then .strong else .moderate,
          ((i : ℤ) - 1), 0, mitigated, prev_candle.timestamp⟩
  else if candle.is_bearish then
    let top := max prev_candle.high (candles.getD (i - 2) defaultCandle).high
    let mitigated := (candles.drop (i + 1)).any fun c => decide (top < c.high)
    some ⟨top, prev_candle.low, .supply,
          if 7/10 < candle.body_ratio then .strong else .moderate,
          ((i : ℤ) - 1), 0, mitigated, prev_candle.timestamp⟩
  else none

/-- detect_zones of smc.py: scan indices 2 .. len-2 for impulse candles,
build zones with mitigation, optionally filter overlaps, then apply the
freshness / control / distance tradability filter. -/
def detect_zones (candles : List Candle) (control : String) (current_price : ℚ)
    (filter_overlaps : Bool) : ZoneResult :=
  if candles.length < 10 then ⟨[], [], [], [], ["Insufficient candles"]⟩
  else
    let current_timestamp := (candles.getLastD defaultCandle).timestamp
    let zones0 := (List.range' 2 (candles.length - 3)).foldl
      (fun zs i => match zoneAt candles i with
        | some z => zs ++ [z]
        | none => zs) []
    let zones := if filter_overlaps then filter_overlapping_zones zones0 else zones0
    let unmitigated_supply := zones.filter fun z => z.type = .supply ∧ z.mitigated = false
    let unmitigated_demand := zones.filter fun z => z.type = .demand ∧ z.mitigated = false
    let tradable_zones := zones.filter fun zone =>
      if zone.mitigated then false
      else
        let freshness := if 0 < current_timestamp
          then zone.freshness_score current_timestamp 168 else 1
        if freshness < 1/10 then false
        else if zone.type = .demand ∧ (control = "buyers" ∨ control = "neutral") then
          decide (|current_price - zone.mid_price| < zone.zone_size * 3)
        else if zone.type = .supply ∧ (control = "sellers" ∨ control = "neutral") then
          decide (|current_price - zone.mid_price| < zone.zone_size * 3)
        else false
    let nz := zones.length
    let ns := unmitigated_supply.length
    let nd := unmitigated_demand.length
    let nt := tradable_zones.length
    ⟨tradable_zones, unmitigated_supply, unmitigated_demand, zones,
     ["Found " ++ toString nz ++ " total zones",
      "Unmitigated: " ++ toString ns ++ " supply, " ++ toString nd ++ " demand",
      "Tradable zones: " ++ toString nt]⟩

/-- analyze_clarity of smc.py: the composite 0-100 clarity score of one
timeframe.  The timeframe label argument of the source is unused by its
body and omitted here. -/
def analyze_clarity (candles : List Candle) (cfg : SMCClarityConfig) : ClarityResult :=
  if candles.length < cfg.min_candles then
    ⟨0, false, 0, 0, 0, ["Insufficient candle data"]⟩
  else
    let swing_points := detect_swing_points candles cfg.swing_lookback
    let classified_swings := classify_swing_points swing_points
    let trend := determine_trend candles classified_swings
    let trend_consistency := calculate_weighted_trend_consistency classified_swings
      trend cfg.use_recency_weighting cfg.use_swing_size_weighting
    let swing_quality := calculate_swing_quality_score classified_swings
    let zones := detect_zones candles "neutral" (candles.getLastD defaultCandle).close
      cfg.filter_overlapping_zones
    let unmitigated := zones.all_zones.filter fun z => z.mitigated = false
    let zone_clarity := calculate_zone_clarity unmitigated cfg.max_zones_for_clarity
    let structure_clarity := calculate_structure_clarity classified_swings
      cfg.min_swing_points_required
    let score : ℚ := (pyRound (trend_consistency * 30 + zone_clarity * 30 +
      structure_clarity * 25 + swing_quality * 15) : ℚ)
    let is_clear := (cfg.min_clarity_score : ℚ) ≤ score ∧
      cfg.min_swing_points_required ≤ classified_swings.length ∧
      cfg.min_zones_required ≤ (unmitigated.length : ℤ)
    let tcs := toString (pyRound (trend_consistency * 100))
    let sqs := toString (pyRound (swing_quality * 100))
    let zcs := toString (pyRound (zone_clarity * 100))
    let scs := toString (pyRound (structure_clarity * 100))
    let nu := toString unmitigated.length
    ⟨score, is_clear, trend_consistency, zone_clarity, structure_clarity,
     ["Trend consistency: " ++ tcs ++ "%",
      "Swing quality: " ++ sqs ++ "%",
      "Zone clarity: " ++ zcs ++ "% (" ++ nu ++ " unmitigated zones)",
      "Structure clarity: " ++ scs ++ "%"]⟩

/-- refine_zone of smc.py: tighten a zone from lower-timeframe candles.
The zone_candles argument of the source is unused by its body and kept for
fidelity.  The refined Zone construction omits touches, mitigated and
created_at, so they take the dataclass defaults 0, False and 0. -/
def refine_zone (major_zone : Zone) (zone_candles refinement_candles : List Candle) :
    RefinementResult :=
  let _ := zone_candles
  if refinement_candles.isEmpty then
    ⟨none, major_zone, false, ["No refinement candles available"]⟩
  else
    let zone_candles_ltf := refinement_candles.filter fun c =>
      (major_zone.bottom_price ≤ c.close ∧ c.close ≤ major_zone.top_price) ∨
      (major_zone.bottom_price ≤ c.«open» ∧ c.«open» ≤ major_zone.top_price)
    if zone_candles_ltf.length < 3 then
      ⟨none, major_zone, false, ["Not enough LTF candles in zone for refinement"]⟩
    else
      let pair : ℚ × ℚ :=
        if major_zone.type = .demand then
          (pyMin ((lastN 3 zone_candles_ltf).map (·.high)),
           pyMin (zone_candles_ltf.map (·.low)))
        else
          (pyMax (zone_candles_ltf.map (·.high)),
           pyMax ((lastN 3 zone_candles_ltf).map (·.low)))
      let refined_top := pair.1
      let refined_bottom := pair.2
      let pair2 : ℚ × ℚ :=
        if refined_top ≤ refined_bottom then (refined_bottom, refined_top)
        else (refined_top, refined_bottom)
      let rt := pair2.1
      let rb := pair2.2
      let zone_reduction := 1 - (rt - rb) / major_zone.zone_size
      if zone_reduction < 1/10 then
        ⟨none, major_zone, false, ["Refinement did not significantly reduce zone size"]⟩
      else
        let refined_zone : Zone :=
          ⟨rt, rb, major_zone.type, major_zone.strength,
           major_zone.origin_candle_index, 0, false, 0⟩
        ⟨some refined_zone, major_zone, true,
         ["Refined zone by " ++ fmtFixed 0 (zone_reduction * 100) ++ "%",
          "Original: " ++ fmtFixed 5 major_zone.bottom_price ++ " - " ++
            fmtFixed 5 major_zone.top_price,
          "Refined: " ++ fmtFixed 5 rb ++ " - " ++ fmtFixed 5 rt]⟩

-- Entry detection (smc.py).

/-- Close of the last candle (candles[-1].close in the source). -/
def lastClose (candles : List Candle) : ℚ := (candles.getLastD defaultCandle).close

/-- The price_near_zone test of detect_entry: within half a zone width of
either boundary. -/
def priceNearZone (zone : Zone) (current_price : ℚ) : Bool :=
  |current_price - zone.top_price| < zone.zone_size * (1/2) ∨
  |current_price - zone.bottom_price| < zone.zone_size * (1/2)

/-- The confirmation accumulation of detect_entry: starting from confidence
50 and entry type zone_touch, add the zone bonus and the four
direction-specific bonuses of the source in order; the liquidity sweep
assignment overrides the CHoCH one.  Returns (confidence, entry type,
confirmations in append order). -/
def entryEvidence (candles : List Candle) (zone : Zone)
    (direction : SignalDirection) : ℤ × EntryType × List String :=
  let current_price := lastClose candles
  let last_candle := candles.getLastD defaultCandle
  let prev_candle := candles.dropLast.getLastD defaultCandle
  let price_at_zone := zone.price_in_zone current_price
  let conf0 : ℤ := 50 + (if price_at_zone then 10 else 0)
  let confirms0 : List String :=
    if price_at_zone then ["Price at " ++ zone.type.value ++ " zone"] else []
  match direction with
  | .buy =>
    let b1 := last_candle.is_bullish && decide (1/2 ≤ last_candle.body_ratio)
    let b2 := decide (prev_candle.high < last_candle.close)
    let b3 := decide (last_candle.body_size < last_candle.lower_wick)
    let b4 := decide (last_candle.low < prev_candle.low) &&
              decide (prev_candle.close < last_candle.close)
    (conf0 + (if b1 then 10 else 0) + (if b2 then 10 else 0) +
       (if b3 then 5 else 0) + (if b4 then 15 else 0),
     (if b4 then .liquidity_sweep else if b2 then .choch else .zone_touch),
     confirms0 ++ (if b1 then ["Strong bullish momentum candle"] else []) ++
       (if b2 then ["Closed above previous high"] else []) ++
       (if b3 then ["Bullish rejection wick"] else []) ++
       (if b4 then ["Liquidity sweep followed by recovery"] else []))
  | .sell =>
    let b1 := last_candle.is_bearish && decide (1/2 ≤ last_candle.body_ratio)
    let b2 := decide (last_candle.close < prev_candle.low)
    let b3 := decide (last_candle.body_size < last_candle.upper_wick)
    let b4 := decide (prev_candle.high < last_candle.high) &&
              decide (last_candle.close < prev_candle.close)
    (conf0 + (if b1 then 10 else 0) + (if b2 then 10 else 0) +
       (if b3 then 5 else 0) + (if b4 then 15 else 0),
     (if b4 then .liquidity_sweep else if b2 then .choch else .zone_touch),
     confirms0 ++ (if b1 then ["Strong bearish momentum candle"] else []) ++
       (if b2 then ["Closed below previous low"] else []) ++
       (if b3 then ["Bearish rejection wick"] else []) ++
       (if b4 then ["Liquidity sweep followed by drop"] else []))

/-- The stop-loss of detect_entry: half a zone width beyond the far zone
boundary for the trade direction. -/
def entryStop (zone : Zone) : SignalDirection → ℚ
  | .buy => zone.bottom_price - zone.zone_size * (1/2)
  | .sell => zone.top_price + zone.zone_size * (1/2)

/-- The Python truthiness test of the take-profit target branch:
target_price is not None, not 0.0, and on the profitable side of entry. -/
def targetUsable (direction : SignalDirection) (entry : ℚ) : Option ℚ → Bool
  | none => false
  | some t =>
    match direction with
    | .buy => decide ¬(t = 0) && decide (entry < t)
    | .sell => decide ¬(t = 0) && decide (t < entry)

/-- The take-profit computation of detect_entry: the supplied target when
usable, else the nearest opposing zone boundary among all_zones (with no
mitigation filter, as in the source), else the 2.5 x risk fallback. -/
def entryTakeProfit (direction : SignalDirection) (entry stop : ℚ)
    (target_price : Option ℚ) (all_zones : List Zone) : ℚ :=
  match direction with
  | .buy =>
    if targetUsable .buy entry target_price then target_price.getD 0
    else
      let nearest_supply := all_zones.filter fun z =>
        z.type = .supply ∧ entry < z.bottom_price
      if nearest_supply.isEmpty then entry + (entry - stop) * (5/2)
      else pyMin (nearest_supply.map (·.bottom_price))
  | .sell =>
    if targetUsable .sell entry target_price then target_price.getD 0
    else
      let nearest_demand := all_zones.filter fun z =>
        z.type = .demand ∧ z.top_price < entry
      if nearest_demand.isEmpty then entry - (stop - entry) * (5/2)
      else pyMax (nearest_demand.map (·.top_price))

/-- The risk / reward ratio of detect_entry: reward / risk when risk is
positive, else 0. -/
def riskReward (risk reward : ℚ) : ℚ := if 0 < risk then reward / risk else 0

/-- detect_entry of smc.py: candle-count gate, price-at-zone gate,
confidence gate at 60, stop / take-profit computation and the risk / reward
gate at 1.5; a zero risk distance yields ratio 0 rather than a division. -/
def detect_entry (candles : List Candle) (zone : Zone)
    (direction : SignalDirection) (target_price : Option ℚ)
    (all_zones : List Zone) : EntryResult :=
  if candles.length < 5 then ⟨false, none, ["Insufficient candles"]⟩
  else
    let current_price := lastClose candles
    let price_at_zone := zone.price_in_zone current_price
    let price_near_zone := priceNearZone zone current_price
    if ¬(price_at_zone ∨ price_near_zone) then ⟨false, none, ["Price not at zone"]⟩
    else
      let ev := entryEvidence candles zone direction
      let confidence := ev.1
      let entry_type := ev.2.1
      let confirmations := ev.2.2
      if confidence < 60 then
        ⟨false, none,
         ["Confidence " ++ toString confidence ++ "% too low, need 60%"]⟩
      else
        let entry_price := current_price
        let stop_loss := entryStop zone direction
        let take_profit :=
          entryTakeProfit direction entry_price stop_loss target_price all_zones
        let risk := |entry_price - stop_loss|
        let reward := |take_profit - entry_price|
        let rr_ratio := riskReward risk reward
        if rr_ratio < 3/2 then
          ⟨false, none, ["R:R " ++ fmtFixed 2 rr_ratio ++ " too low, need 1.5"]⟩
        else
          ⟨true,
           some ⟨direction, entry_type, entry_price, stop_loss, take_profit,
                 rr_ratio, min confidence 95, zone, confirmations⟩,
           ["Entry detected: " ++ entry_type.value,
            "Confidence: " ++ toString confidence ++ "%, R:R: 1:" ++
              fmtFixed 1 rr_ratio] ++ confirmations⟩

-- The SMCStrategy pipeline (smc.py and base.py).

/-- create_signal_id of base.py, with the time.time() read and the
uuid4().hex draw as explicit arguments. -/
def create_signal_id (strategy_id : String) (tNow : ℚ) (uuidHex : String) : String :=
  strategy_id ++ "_" ++ toString (pyInt tNow) ++ "_" ++ uuidHex.take 8

/-- calculate_expiry_time of base.py (hours has source default 4.0). -/
def calculate_expiry_time (tNow : ℚ) (hours : ℚ) : ℤ :=
  pyInt ((tNow + hours * 3600) * 1000)

/-- The stub ClarityResult(0, False, 0, 1.0, False, []) used by
_select_timeframes for an empty timeframe; the Boolean False placed in the
numeric structure_clarity slot by the source is numerically 0. -/
def emptyClarity : ClarityResult := ⟨0, false, 0, 1, 0, []⟩

/-- SMCStrategy._select_timeframes of smc.py. -/
def selectTimeframes (cfg : SMCClarityConfig) (data : MultiTimeframeData) :
    TimeframeSelection :=
  let d1_clarity := if data.d1.isEmpty then emptyClarity else analyze_clarity data.d1 cfg
  let h4_clarity := if data.h4.isEmpty then emptyClarity else analyze_clarity data.h4 cfg
  let m15_clarity := if data.m15.isEmpty then emptyClarity else analyze_clarity data.m15 cfg
  let m5_clarity := if data.m5.isEmpty then emptyClarity else analyze_clarity data.m5 cfg
  let major_zone_tf := if 50 ≤ h4_clarity.score then "4H" else "2H"
  let zone_id_tf := if 50 ≤ m15_clarity.score then "15M" else "30M"
  let entry_tf := if 50 ≤ m5_clarity.score then "5M" else "3M"
  let is_clear := 40 ≤ d1_clarity.score ∧ 40 ≤ h4_clarity.score ∧ 40 ≤ m15_clarity.score
  ⟨"1D", major_zone_tf, zone_id_tf, entry_tf,
   d1_clarity.score, h4_clarity.score, m15_clarity.score, m5_clarity.score,
   is_clear, d1_clarity.reasoning ++ h4_clarity.reasoning⟩

/-- SMCStrategy._get_major_zone_candles of smc.py. -/
def getMajorZoneCandles (data : MultiTimeframeData) (tf : String) : List Candle :=
  if tf = "4H" then data.h4
  else if tf = "2H" then data.h2
  else if tf = "1H" then data.h1
  else data.h4

/-- SMCStrategy._get_zone_id_candles of smc.py. -/
def getZoneIdCandles (data : MultiTimeframeData) (tf : String) : List Candle :=
  if tf = "30M" then data.m30
  else if tf = "15M" then data.m15
  else data.m15

/-- SMCStrategy._get_refinement_candles of smc.py. -/
def getRefinementCandles (data : MultiTimeframeData) (tf : String) : List Candle :=
  if tf = "5M" then data.m5
  else if tf = "3M" then data.m3
  else if tf = "1M" then data.m1
  else data.m5

/-- SMCStrategy._build_signal of smc.py.  The source asserts
entry_result.setup is not None; the setup is passed here as the matched
value.  The time.time() reads and uuid draw are the tNow / uuidHex
arguments. -/
def build_signal (stratCfg : StrategyConfig) (instrument : InstrumentData)
    (entry_result : EntryResult) (setup : EntrySetup)
    (h4_trend : TrendDirection) (zones_result : ZoneResult)
    (refinement_result : RefinementResult) (tf_selection : TimeframeSelection)
    (swing_points : List SwingPoint) (tNow : ℚ) (uuidHex : String) :
    StrategySignal :=
  let market_context : MarketContext :=
    ⟨h4_trend, h4_trend, none, none, swing_points,
     zones_result.unmitigated_supply, zones_result.unmitigated_demand,
     zones_result.reasoning⟩
  let all_reasoning : List String :=
    ["1D Context: trend " ++ h4_trend.value ++ " (clarity: " ++
       fmtFixed 0 tf_selection.daily_context_clarity ++ "%)",
     "Major Zones: " ++ tf_selection.major_zone_tf ++ " (clarity: " ++
       fmtFixed 0 tf_selection.major_zone_clarity ++ "%)",
     "Zone ID: " ++ tf_selection.zone_identification_tf ++ " (clarity: " ++
       fmtFixed 0 tf_selection.zone_identification_clarity ++ "%)",
     "Entry: " ++ tf_selection.entry_refinement_tf ++ " (clarity: " ++
       fmtFixed 0 tf_selection.entry_refinement_clarity ++ "%)"] ++
    tf_selection.reasoning ++ zones_result.reasoning ++
    refinement_result.reasoning ++ entry_result.reasoning
  ⟨create_signal_id stratCfg.id tNow uuidHex, stratCfg.id, stratCfg.name,
   instrument.symbol, instrument.asset_class, setup.direction,
   setup.entry_type, setup.entry_price, setup.stop_loss, setup.take_profit,
   setup.risk_reward_ratio, setup.confidence,
   tf_selection.entry_refinement_tf, market_context, setup,
   [("h4", zones_result.all_zones), ("m15", zones_result.tradable_zones),
    ("m5", []), ("m1", [])],
   all_reasoning, pyInt (tNow * 1000), calculate_expiry_time tNow 4⟩

/-- The signal / pending recording branch at the end of the
per-candidate-zone loop of SMCStrategy.analyze: a rejected entry whose setup
survived with confidence at least 40 is recorded as pending; an accepted
setup becomes a signal at or above the strategy minimum confidence and is
recorded as pending between 50 and that minimum. -/
def recordResult (stratCfg : StrategyConfig) (entry_result : EntryResult)
    (mkSig : EntrySetup → StrategySignal)
    (acc : List StrategySignal × List EntrySetup) :
    List StrategySignal × List EntrySetup :=
  if entry_result.has_valid_entry = false then
    match entry_result.setup with
    | some s => if 40 ≤ s.confidence then (acc.1, acc.2 ++ [s]) else acc
    | none => acc
  else
    match entry_result.setup with
    | some s =>
      if stratCfg.min_confidence ≤ s.confidence then (acc.1 ++ [mkSig s], acc.2)
      else if 50 ≤ s.confidence then (acc.1, acc.2 ++ [s])
      else acc
    | none => acc

/-- The body of the per-candidate-zone loop of SMCStrategy.analyze,
threading the (signals, pending_setups) accumulator. -/
def analyzeStep (stratCfg : StrategyConfig) (instrument : InstrumentData)
    (tf_selection : TimeframeSelection) (h4_trend : TrendDirection)
    (mzr : ZoneResult) (swing_points : List SwingPoint) (tNow : ℚ)
    (uuidHex : String) (acc : List StrategySignal × List EntrySetup)
    (major_zone : Zone) : List StrategySignal × List EntrySetup :=
  let data := instrument.data
  let zone_id_candles := getZoneIdCandles data tf_selection.zone_identification_tf
  let refinement_candles :=
    getRefinementCandles data tf_selection.entry_refinement_tf
  let refinement_result := refine_zone major_zone zone_id_candles refinement_candles
  let zone_to_use := refinement_result.refined_zone.getD major_zone
  let direction : SignalDirection :=
    if major_zone.type = .demand then .buy else .sell
  let nearest_target : Option ℚ :=
    if direction = .buy ∧ ¬mzr.unmitigated_supply.isEmpty then
      let supply_above := mzr.unmitigated_supply.filter fun z =>
        instrument.current_price < z.bottom_price
      if supply_above.isEmpty then none
      else some (pyMin (supply_above.map (·.bottom_price)))
    else if direction = .sell ∧ ¬mzr.unmitigated_demand.isEmpty then
      let demand_below := mzr.unmitigated_demand.filter fun z =>
        z.top_price < instrument.current_price
      if demand_below.isEmpty then none
      else some (pyMax (demand_below.map (·.top_price)))
    else none
  let entry_result :=
    detect_entry refinement_candles zone_to_use direction nearest_target mzr.all_zones
  recordResult stratCfg entry_result
    (fun s => build_signal stratCfg instrument entry_result s h4_trend mzr
      refinement_result tf_selection swing_points tNow uuidHex)
    acc

/-- SMCStrategy.analyze of smc.py as a pure function.  tStart and tNow are
the time.time() reads at entry and at result construction, uuidHex the
uuid4().hex draw of create_signal_id.  The embedded pipeline is total, so
the except-branch of the source is unreachable and errors is always
empty. -/
def analyze (stratCfg : StrategyConfig) (smcCfg : SMCClarityConfig)
    (instrument : InstrumentData) (tStart tNow : ℚ) (uuidHex : String) :
    StrategyResult :=
  let data := instrument.data
  let current_price := instrument.current_price
  let tf_selection := selectTimeframes smcCfg data
  let elapsed := pyInt ((tNow - tStart) * 1000)
  if tf_selection.is_clear = false then ⟨stratCfg.id, [], [], [], elapsed⟩
  else
    let context_candles := if data.d1.isEmpty then data.h4 else data.d1
    let swing_points := detect_swing_points context_candles smcCfg.swing_lookback
    let h4_trend := determine_trend context_candles swing_points
    let control := if h4_trend = .bullish then "buyers"
      else if h4_trend = .bearish then "sellers" else "neutral"
    let major_zone_candles := getMajorZoneCandles data tf_selection.major_zone_tf
    let mzr := detect_zones major_zone_candles control current_price
      smcCfg.filter_overlapping_zones
    if mzr.tradable_zones.isEmpty then ⟨stratCfg.id, [], [], [], elapsed⟩
    else
      let res := (mzr.tradable_zones.take 3).foldl
        (analyzeStep stratCfg instrument tf_selection h4_trend mzr swing_points
          tNow uuidHex)
        ([], [])
      ⟨stratCfg.id, res.1, res.2, [], elapsed⟩

-- Concrete data used by the counterexamples and witnesses.

/-- A flat doji candle at price 100 (zero body, range 99 - 101). -/
def dojiS : Candle := ⟨0, 100, 101, 99, 100, 0⟩

/-- Context / clarity candle series for swing lookback 1: 10 flat candles
with swing highs at indices 1, 3 and 5, swing lows at 5 and 7; its
classified swings are HH, LH, LH, LL, LL with sizes 0, 10, 4, 0, 10 and its
clarity score under exCfgSmall is 45. -/
def exClarityCandles : List Candle :=
  [dojiS,
   ⟨0, 100, 120, 99, 100, 0⟩,
   dojiS,
   ⟨0, 100, 110, 99, 100, 0⟩,
   dojiS,
   ⟨0, 100, 106, 80, 100, 0⟩,
   dojiS,
   ⟨0, 100, 101, 70, 100, 0⟩,
   dojiS, dojiS]

/-- SMCClarityConfig with min_candles 4 and swing_lookback 1, otherwise the
defaults; used to exercise the full pipeline on short series. -/
def exCfgSmall : SMCClarityConfig :=
  ⟨60, 1, 5, 4, 3/5, 4, 1, 168, true, true, true, 3/2, 60⟩

/-- Major-zone candle series: one bullish impulse at index 5 over a small
body at index 4, making an unmitigated demand zone from 99 to 102. -/
def exZoneCandles : List Candle :=
  [⟨0, 100, 100.5, 99.5, 100, 0⟩,
   ⟨0, 100, 100.5, 99.5, 100, 0⟩,
   ⟨0, 100, 100.5, 99.5, 100, 0⟩,
   ⟨0, 100, 101, 99.5, 100, 0⟩,
   ⟨0, 100, 102, 99, 101, 0⟩,
   ⟨0, 101, 112, 101, 111, 0⟩,
   ⟨0, 110, 110.5, 109.5, 110, 0⟩,
   ⟨0, 110, 110.5, 109.5, 110, 0⟩,
   ⟨0, 110, 110.5, 109.5, 110, 0⟩,
   ⟨0, 110, 110.5, 109.5, 110, 0⟩]

/-- The demand Zone produced by detect_zones on exZoneCandles. -/
def exZone : Zone := ⟨102, 99, .demand, .strong, 4, 0, false, 0⟩

/-- Entry-timeframe candle series: four candles away from the zone and a
last candle closing at 101, inside the zone. -/
def exEntryCandles : List Candle :=
  [⟨0, 105, 106, 104, 105, 0⟩,
   ⟨0, 105, 106, 104, 105, 0⟩,
   ⟨0, 105, 106, 104, 105, 0⟩,
   ⟨0, 105, 106, 104, 105, 0⟩,
   ⟨0, 101.5, 102, 100.9, 101, 0⟩]

/-- Instrument data exercising the full pipeline: clarity series on 1D, 4H
and 15M, the zone series on 2H, the entry series on 3M. -/
def exInstrument : InstrumentData :=
  ⟨"EURUSD", "forex", 101,
   ⟨exClarityCandles, exClarityCandles, exZoneCandles, [], [],
    exClarityCandles, [], exEntryCandles, []⟩⟩


/-- A mitigated supply zone above the example entry price, for the
take-profit mitigation test. -/
def exSupplyMitigated : Zone := ⟨130, 120, .supply, .moderate, 7, 0, true, 0⟩

/-- Overlapping moderate zone with origin index 5 (the older zone). -/
def exZoneOldOrigin : Zone := ⟨10, 0, .demand, .moderate, 5, 0, false, 0⟩

/-- Overlapping moderate zone with origin index 10 (the more recent zone). -/
def exZoneNewOrigin : Zone := ⟨9, 1, .demand, .moderate, 10, 0, false, 0⟩

/-- Two classified swings whose swing_size is 0. -/
def exZeroSizeSwings : List SwingPoint :=
  [⟨100, 0, true, 0, some .HH, 0⟩, ⟨90, 1, false, 0, some .LL, 0⟩]

/-- A wide demand zone with nonzero created_at, touches and mitigated,
to be refined. -/
def exWideZone : Zone := ⟨100, 0, .demand, .moderate, 2, 2, true, 5555⟩

/-- Three candles inside exWideZone giving an accepted 97% refinement. -/
def exRefCandles : List Candle :=
  [⟨0, 50, 52, 49, 51, 0⟩, ⟨0, 50, 52, 49, 51, 0⟩, ⟨0, 50, 52, 49, 51, 0⟩]

/-- A degenerate zero-size zone at price 100. -/
def exPointZone : Zone := ⟨100, 100, .demand, .moderate, 0, 0, false, 0⟩

/-- Five flat candles at price 100, sitting exactly on exPointZone. -/
def exFlatCandles : List Candle :=
  [⟨0, 100, 100, 100, 100, 0⟩, ⟨0, 100, 100, 100, 100, 0⟩,
   ⟨0, 100, 100, 100, 100, 0⟩, ⟨0, 100, 100, 100, 100, 0⟩,
   ⟨0, 100, 100, 100, 100, 0⟩]

/-- SMCClarityConfig equal to the defaults except min_rr_ratio raised
to 3. -/
def exCfgMinRR3 : SMCClarityConfig :=
  ⟨60, 1, 5, 4, 3/5, 20, 5, 168, true, true, true, 3, 60⟩

/-- Two classified swings with positive swing sizes 4 and 10. -/
def exSizedSwings : List SwingPoint :=
  [⟨100, 0, true, 0, some .HH, 4⟩, ⟨90, 1, false, 0, some .LL, 10⟩]

/-- The classified swings HH, LH, LH, LL, LL (a bearish sequence). -/
def exBearishSwings : List SwingPoint :=
  [⟨120, 5, true, 0, some .HH, 0⟩, ⟨110, 11, true, 0, some .LH, 10⟩,
   ⟨106, 17, true, 0, some .LH, 4⟩, ⟨80, 17, false, 0, some .LL, 0⟩,
   ⟨70, 23, false, 0, some .LL, 10⟩]

/-- The zone produced by the accepted refinement of exWideZone from
exRefCandles. -/
def exRefinedZone : Zone := ⟨52, 49, .demand, .moderate, 2, 0, false, 0⟩

/-- A StrategySignal with the wall-clock and uuid derived fields (id,
created_at, expires_at) blanked, used to state determinism of everything
else. -/
def stripStamps (s : StrategySignal) : StrategySignal :=
  ⟨"", s.strategy_id, s.strategy_name, s.symbol, s.asset_class, s.direction,
   s.entry_type, s.entry_price, s.stop_loss, s.take_profit,
   s.risk_reward_ratio, s.confidence, s.timeframe, s.market_context,
   s.entry_setup, s.zones, s.reasoning, 0, 0⟩


-- Helper lemmas shared by several claim theorems.

/-- Every rejection path of detect_entry returns setup None. -/
theorem detect_entry_reject_setup_none (candles : List Candle) (zone : Zone)
    (direction : SignalDirection) (target_price : Option ℚ)
    (all_zones : List Zone) :
    (detect_entry candles zone direction target_price all_zones).has_valid_entry
      = false →
    (detect_entry candles zone direction target_price all_zones).setup = none := by
  unfold detect_entry
  dsimp only
  split
  · intro _; rfl
  · split
    · intro _; rfl
    · split
      · intro _; rfl
      · split
        · intro _; rfl
        · intro h; simp at h

/-- Every acceptance path of detect_entry returns a setup whose confidence
lies between 60 and 95 and whose risk / reward ratio is at least 1.5. -/
theorem detect_entry_valid_setup (candles : List Candle) (zone : Zone)
    (direction : SignalDirection) (target_price : Option ℚ)
    (all_zones : List Zone) :
    (detect_entry candles zone direction target_price all_zones).has_valid_entry
      = true →
    ∃ s, (detect_entry candles zone direction target_price all_zones).setup
        = some s ∧
      60 ≤ s.confidence ∧ s.confidence ≤ 95 ∧ 3/2 ≤ s.risk_reward_ratio := by
  unfold detect_entry
  dsimp only
  split
  · intro h; simp at h
  · split
    · intro h; simp at h
    · split
      · intro h; simp at h
      · split
        · intro h; simp at h
        · intro hvalid
          rename_i hconf hrr
          push_neg at hconf hrr
          exact ⟨_, rfl, le_min hconf (by norm_num), min_le_right _ _, hrr⟩

/-- The seed of a max fold is below the fold result. -/
theorem le_foldl_max (xs : List ℚ) (x : ℚ) : x ≤ xs.foldl max x := by
  induction xs generalizing x with
  | nil => exact le_refl x
  | cons y ys ih => exact le_trans (le_max_left x y) (ih (max x y))

/-- A max fold result is the seed or a list element. -/
theorem foldl_max_mem (xs : List ℚ) (x : ℚ) :
    xs.foldl max x = x ∨ xs.foldl max x ∈ xs := by
  induction xs generalizing x with
  | nil => exact Or.inl rfl
  | cons y ys ih =>
    rw [List.foldl_cons]
    rcases ih (max x y) with h | h
    · rcases max_choice x y with hm | hm
      · exact Or.inl (by rw [h, hm])
      · exact Or.inr (by rw [h, hm]; exact List.mem_cons_self y ys)
    · exact Or.inr (List.mem_cons_of_mem y h)

/-- Every list element is below the max fold result. -/
theorem mem_le_foldl_max (xs : List ℚ) : ∀ (x a : ℚ), a ∈ xs → a ≤ xs.foldl max x := by
  induction xs with
  | nil => intro x a ha; cases ha
  | cons y ys ih =>
    intro x a ha
    rw [List.foldl_cons]
    rcases List.mem_cons.1 ha with h | h
    · subst h
      exact le_trans (le_max_right x a) (le_foldl_max ys (max x a))
    · exact ih (max x y) a h

/-- The seed of a min fold is above the fold result. -/
theorem foldl_min_le (xs : List ℚ) (x : ℚ) : xs.foldl min x ≤ x := by
  induction xs generalizing x with
  | nil => exact le_refl x
  | cons y ys ih => exact le_trans (ih (min x y)) (min_le_left x y)

/-- A min fold result is the seed or a list element. -/
theorem foldl_min_mem (xs : List ℚ) (x : ℚ) :
    xs.foldl min x = x ∨ xs.foldl min x ∈ xs := by
  induction xs generalizing x with
  | nil => exact Or.inl rfl
  | cons y ys ih =>
    rw [List.foldl_cons]
    rcases ih (min x y) with h | h
    · rcases min_choice x y with hm | hm
      · exact Or.inl (by rw [h, hm])
      · exact Or.inr (by rw [h, hm]; exact List.mem_cons_self y ys)
    · exact Or.inr (List.mem_cons_of_mem y h)

/-- Every list element is above the min fold result. -/
theorem foldl_min_le_mem (xs : List ℚ) : ∀ (x a : ℚ), a ∈ xs → xs.foldl min x ≤ a := by
  induction xs with
  | nil => intro x a ha; cases ha
  | cons y ys ih =>
    intro x a ha
    rw [List.foldl_cons]
    rcases List.mem_cons.1 ha with h | h
    · subst h
      exact le_trans (foldl_min_le ys (min x a)) (min_le_right x a)
    · exact ih (min x y) a h

/-- pyMax of a nonempty list is an element of it. -/
theorem pyMax_mem (l : List ℚ) (h : l ≠ []) : pyMax l ∈ l := by
  cases l with
  | nil => exact absurd rfl h
  | cons x xs =>
    simp only [pyMax]
    rcases foldl_max_mem xs x with h' | h'
    · rw [h']; exact List.mem_cons_self x xs
    · exact List.mem_cons_of_mem x h'

/-- Every element is at most pyMax. -/
theorem le_pyMax (l : List ℚ) (a : ℚ) (ha : a ∈ l) : a ≤ pyMax l := by
  cases l with
  | nil => cases ha
  | cons x xs =>
    simp only [pyMax]
    rcases List.mem_cons.1 ha with h | h
    · rw [h]; exact le_foldl_max xs x
    · exact mem_le_foldl_max xs x a h

/-- pyMin of a nonempty list is an element of it. -/
theorem pyMin_mem (l : List ℚ) (h : l ≠ []) : pyMin l ∈ l := by
  cases l with
  | nil => exact absurd rfl h
  | cons x xs =>
    simp only [pyMin]
    rcases foldl_min_mem xs x with h' | h'
    · rw [h']; exact List.mem_cons_self x xs
    · exact List.mem_cons_of_mem x h'

/-- pyMin is at most every element. -/
theorem pyMin_le (l : List ℚ) (a : ℚ) (ha : a ∈ l) : pyMin l ≤ a := by
  cases l with
  | nil => cases ha
  | cons x xs =>
    simp only [pyMin]
    rcases List.mem_cons.1 ha with h | h
    · rw [h]; exact foldl_min_le xs x
    · exact foldl_min_le_mem xs x a h

/-- Zone overlap is symmetric. -/
theorem Zone.overlaps_with_symm (a b : Zone) :
    a.overlaps_with b = b.overlaps_with a := by
  simp only [Zone.overlaps_with, gt_iff_lt]
  by_cases h1 : a.top_price < b.bottom_price <;>
    by_cases h2 : b.top_price < a.bottom_price <;> simp [h1, h2]

/-- Pairwise non-overlap is preserved by one greedy keep step. -/
theorem greedyStep_pairwise (acc : List Zone) (z : Zone)
    (h : acc.Pairwise (fun a b => a.overlaps_with b = false)) :
    (greedyStep acc z).Pairwise (fun a b => a.overlaps_with b = false) := by
  unfold greedyStep
  split
  · exact h
  · rename_i hany
    rw [List.pairwise_append]
    refine ⟨h, List.pairwise_singleton _ _, ?_⟩
    intro a ha b hb
    rw [List.mem_singleton] at hb
    rw [hb, Zone.overlaps_with_symm]
    cases hza : z.overlaps_with a with
    | false => rfl
    | true => exact absurd (List.any_eq_true.2 ⟨a, ha, hza⟩) hany

/-- Pairwise non-overlap of the greedy keep fold from any pairwise
accumulator. -/
theorem greedyKeep_foldl_pairwise (l : List Zone) :
    ∀ acc : List Zone, acc.Pairwise (fun a b => a.overlaps_with b = false) →
      (l.foldl greedyStep acc).Pairwise (fun a b => a.overlaps_with b = false) := by
  induction l with
  | nil => intro acc h; exact h
  | cons z zs ih =>
    intro acc h
    rw [List.foldl_cons]
    exact ih (greedyStep acc z) (greedyStep_pairwise acc z h)


/-- Two build_signal results at different clock readings and uuid draws
agree after blanking the stamp fields. -/
theorem stripStamps_build_signal (cfg : StrategyConfig) (inst : InstrumentData)
    (er : EntryResult) (s : EntrySetup) (trend : TrendDirection)
    (mzr : ZoneResult) (rres : RefinementResult) (tf : TimeframeSelection)
    (sps : List SwingPoint) (t1 : ℚ) (u1 : String) (t2 : ℚ) (u2 : String) :
    stripStamps (build_signal cfg inst er s trend mzr rres tf sps t1 u1) =
    stripStamps (build_signal cfg inst er s trend mzr rres tf sps t2 u2) := by
  simp only [build_signal, stripStamps]

/-- recordResult never extends pending_setups when the strategy minimum
confidence is at most 60 and the entry result obeys the detect_entry
invariants (rejections carry no setup; acceptances carry confidence at
least 60). -/
theorem recordResult_pending (stratCfg : StrategyConfig) (er : EntryResult)
    (mkSig : EntrySetup → StrategySignal)
    (acc : List StrategySignal × List EntrySetup)
    (hminc : stratCfg.min_confidence ≤ 60)
    (h1 : er.has_valid_entry = false → er.setup = none)
    (h2 : er.has_valid_entry = true →
      ∃ s, er.setup = some s ∧ 60 ≤ s.confidence ∧ s.confidence ≤ 95 ∧
        3/2 ≤ s.risk_reward_ratio) :
    (recordResult stratCfg er mkSig acc).2 = acc.2 := by
  unfold recordResult
  by_cases hv : er.has_valid_entry = false
  · rw [if_pos hv, h1 hv]
  · rw [if_neg hv]
    have hv' : er.has_valid_entry = true := by
      cases h : er.has_valid_entry
      · exact absurd h hv
      · rfl
    obtain ⟨s, hs, hcs, -, -⟩ := h2 hv'
    rw [hs]
    dsimp only
    rw [if_pos (le_trans hminc hcs)]

/-- recordResult maps accumulators identical up to stamps to results
identical up to stamps. -/
theorem recordResult_strip (stratCfg : StrategyConfig) (er : EntryResult)
    (mkSig1 mkSig2 : EntrySetup → StrategySignal)
    (acc1 acc2 : List StrategySignal × List EntrySetup)
    (hsig : ∀ s, stripStamps (mkSig1 s) = stripStamps (mkSig2 s))
    (hacc1 : acc1.1.map stripStamps = acc2.1.map stripStamps)
    (hacc2 : acc1.2 = acc2.2) :
    (recordResult stratCfg er mkSig1 acc1).1.map stripStamps =
      (recordResult stratCfg er mkSig2 acc2).1.map stripStamps ∧
    (recordResult stratCfg er mkSig1 acc1).2 =
      (recordResult stratCfg er mkSig2 acc2).2 := by
  unfold recordResult
  by_cases hv : er.has_valid_entry = false
  · rw [if_pos hv, if_pos hv]
    cases er.setup with
    | none => exact ⟨hacc1, hacc2⟩
    | some s =>
      dsimp only
      by_cases hc : 40 ≤ s.confidence
      · rw [if_pos hc, if_pos hc]
        exact ⟨hacc1, by simp [hacc2]⟩
      · rw [if_neg hc, if_neg hc]
        exact ⟨hacc1, hacc2⟩
  · rw [if_neg hv, if_neg hv]
    cases er.setup with
    | none => exact ⟨hacc1, hacc2⟩
    | some s =>
      dsimp only
      by_cases hc : stratCfg.min_confidence ≤ s.confidence
      · rw [if_pos hc, if_pos hc]
        refine ⟨?_, hacc2⟩
        rw [List.map_append, List.map_append, hacc1]
        simp [hsig s]
      · rw [if_neg hc, if_neg hc]
        by_cases hc2 : 50 ≤ s.confidence
        · rw [if_pos hc2, if_pos hc2]
          exact ⟨hacc1, by simp [hacc2]⟩
        · rw [if_neg hc2, if_neg hc2]
          exact ⟨hacc1, hacc2⟩

/-- One analyze loop step never extends pending_setups when the strategy
minimum confidence is at most 60. -/
theorem analyzeStep_pending (stratCfg : StrategyConfig)
    (hminc : stratCfg.min_confidence ≤ 60) (inst : InstrumentData)
    (tf : TimeframeSelection) (trend : TrendDirection) (mzr : ZoneResult)
    (sps : List SwingPoint) (t : ℚ) (u : String)
    (acc : List StrategySignal × List EntrySetup) (z : Zone) :
    (analyzeStep stratCfg inst tf trend mzr sps t u acc z).2 = acc.2 := by
  unfold analyzeStep
  dsimp only
  exact recordResult_pending _ _ _ _ hminc
    (detect_entry_reject_setup_none _ _ _ _ _)
    (detect_entry_valid_setup _ _ _ _ _)

/-- The analyze loop fold never extends pending_setups when the strategy
minimum confidence is at most 60. -/
theorem foldl_analyzeStep_pending (stratCfg : StrategyConfig)
    (hminc : stratCfg.min_confidence ≤ 60) (inst : InstrumentData)
    (tf : TimeframeSelection) (trend : TrendDirection) (mzr : ZoneResult)
    (sps : List SwingPoint) (t : ℚ) (u : String) (l : List Zone) :
    ∀ acc : List StrategySignal × List EntrySetup,
      (l.foldl (analyzeStep stratCfg inst tf trend mzr sps t u) acc).2 = acc.2 := by
  induction l with
  | nil => intro acc; rfl
  | cons z zs ih =>
    intro acc
    rw [List.foldl_cons, ih, analyzeStep_pending stratCfg hminc]

/-- One analyze loop step at two clock / uuid environments maps
strip-equal accumulators to strip-equal results. -/
theorem analyzeStep_strip (stratCfg : StrategyConfig) (inst : InstrumentData)
    (tf : TimeframeSelection) (trend : TrendDirection) (mzr : ZoneResult)
    (sps : List SwingPoint) (t1 : ℚ) (u1 : String) (t2 : ℚ) (u2 : String)
    (acc1 acc2 : List StrategySignal × List EntrySetup) (z : Zone)
    (h1 : acc1.1.map stripStamps = acc2.1.map stripStamps)
    (h2 : acc1.2 = acc2.2) :
    (analyzeStep stratCfg inst tf trend mzr sps t1 u1 acc1 z).1.map stripStamps =
      (analyzeStep stratCfg inst tf trend mzr sps t2 u2 acc2 z).1.map stripStamps ∧
    (analyzeStep stratCfg inst tf trend mzr sps t1 u1 acc1 z).2 =
      (analyzeStep stratCfg inst tf trend mzr sps t2 u2 acc2 z).2 := by
  unfold analyzeStep
  dsimp only
  exact recordResult_strip _ _ _ _ _ _
    (fun s => stripStamps_build_signal _ _ _ _ _ _ _ _ _ _ _ _ _) h1 h2

/-- The analyze loop fold at two clock / uuid environments maps strip-equal
accumulators to strip-equal results. -/
theorem foldl_analyzeStep_strip (stratCfg : StrategyConfig)
    (inst : InstrumentData) (tf : TimeframeSelection) (trend : TrendDirection)
    (mzr : ZoneResult) (sps : List SwingPoint) (t1 : ℚ) (u1 : String)
    (t2 : ℚ) (u2 : String) (l : List Zone) :
    ∀ acc1 acc2 : List StrategySignal × List EntrySetup,
      acc1.1.map stripStamps = acc2.1.map stripStamps → acc1.2 = acc2.2 →
      (l.foldl (analyzeStep stratCfg inst tf trend mzr sps t1 u1) acc1).1.map
          stripStamps =
        (l.foldl (analyzeStep stratCfg inst tf trend mzr sps t2 u2) acc2).1.map
          stripStamps ∧
      (l.foldl (analyzeStep stratCfg inst tf trend mzr sps t1 u1) acc1).2 =
        (l.foldl (analyzeStep stratCfg inst tf trend mzr sps t2 u2) acc2).2 := by
  induction l with
  | nil => intro acc1 acc2 h1 h2; exact ⟨h1, h2⟩
  | cons z zs ih =>
    intro acc1 acc2 h1 h2
    rw [List.foldl_cons, List.foldl_cons]
    obtain ⟨g1, g2⟩ :=
      analyzeStep_strip stratCfg inst tf trend mzr sps t1 u1 t2 u2 acc1 acc2 z h1 h2
    exact ih _ _ g1 g2

section
/- Rational arithmetic on concrete inputs: Batteries marks the Rat
operations irreducible, which blocks the decide evaluation; they are made
semireducible locally for the concrete counterexamples and witnesses. -/
attribute [local semireducible] Rat.mul Rat.add Rat.sub Rat.inv Rat.ofScientific


/-- C1 counterexample: detect_entry never reads the configuration; with a
config whose min_rr_ratio is 3 it still accepts an entry whose
risk_reward_ratio is 2.5 < 3, so the claim quantified over every
SMCClarityConfig is false. -/
theorem C1_counterexample :
    exCfgMinRR3.min_rr_ratio = 3 ∧
    (detect_entry exEntryCandles exZone .buy none [exZone]).has_valid_entry
      = true ∧
    (detect_entry exEntryCandles exZone .buy none [exZone]).setup.map
      (fun s => s.risk_reward_ratio) = some (5/2) ∧
    ((5 : ℚ)/2) < exCfgMinRR3.min_rr_ratio := by
  exact ⟨rfl, by decide, by decide, by norm_num [exCfgMinRR3]⟩

/-- C1 (amended): detect_entry gates on the hardcoded constants 1.5 and 60,
which equal the shipped defaults: whenever has_valid_entry is true, the
returned EntrySetup has risk_reward_ratio at least
DEFAULT_SMC_CONFIG.min_rr_ratio, confidence at least
DEFAULT_SMC_CONFIG.min_entry_confidence and confidence at most 95. -/
theorem C1_amended (candles : List Candle) (zone : Zone)
    (direction : SignalDirection) (target_price : Option ℚ)
    (all_zones : List Zone) :
    (detect_entry candles zone direction target_price all_zones).has_valid_entry
      = true →
    ∃ s, (detect_entry candles zone direction target_price all_zones).setup
        = some s ∧
      DEFAULT_SMC_CONFIG.min_rr_ratio ≤ s.risk_reward_ratio ∧
      DEFAULT_SMC_CONFIG.min_entry_confidence ≤ s.confidence ∧
      s.confidence ≤ 95 := by
  intro h
  obtain ⟨s, hs, hc1, hc2, hc3⟩ := detect_entry_valid_setup _ _ _ _ _ h
  exact ⟨s, hs, by simpa [DEFAULT_SMC_CONFIG] using hc3,
    by simpa [DEFAULT_SMC_CONFIG] using hc1, hc2⟩

/-- C1 witness: the amended theorem applied to a concrete accepted entry. -/
theorem C1_witness :
    ∃ s, (detect_entry exEntryCandles exZone .buy none [exZone]).setup
        = some s ∧
      DEFAULT_SMC_CONFIG.min_rr_ratio ≤ s.risk_reward_ratio ∧
      DEFAULT_SMC_CONFIG.min_entry_confidence ≤ s.confidence ∧
      s.confidence ≤ 95 :=
  C1_amended exEntryCandles exZone .buy none [exZone] (by decide)

/-- C3: with the shipped SMC_CONFIG (min_confidence 60), every analyze run
returns an empty pending_setups list, for any clarity configuration,
instrument input, clock readings and uuid draw: rejections of detect_entry
carry no setup and acceptances carry confidence at least 60. -/
theorem C3_pending_empty (smcCfg : SMCClarityConfig) (inst : InstrumentData)
    (tStart tNow : ℚ) (uuidHex : String) :
    (analyze SMC_CONFIG smcCfg inst tStart tNow uuidHex).pending_setups = [] := by
  unfold analyze
  dsimp only
  split
  · rfl
  · repeat' split
    all_goals first
      | rfl
      | exact foldl_analyzeStep_pending SMC_CONFIG (by decide) _ _ _ _ _ _ _ _
          ([], [])


set_option maxHeartbeats 2000000 in
/-- C2 (amended): SMCStrategy.analyze is deterministic in everything except
the wall-clock and uuid derived fields.  For identical instrument input and
configuration, two invocations at any clock readings and uuid draws agree
on strategy_id, pending_setups, errors, and on every signal field other
than id, created_at and expires_at (analysis_time_ms is likewise
clock-derived). -/
theorem C2_deterministic_modulo_stamps (stratCfg : StrategyConfig)
    (smcCfg : SMCClarityConfig) (inst : InstrumentData) (t1s t1n : ℚ)
    (u1 : String) (t2s t2n : ℚ) (u2 : String) :
    (analyze stratCfg smcCfg inst t1s t1n u1).strategy_id =
      (analyze stratCfg smcCfg inst t2s t2n u2).strategy_id ∧
    (analyze stratCfg smcCfg inst t1s t1n u1).signals.map stripStamps =
      (analyze stratCfg smcCfg inst t2s t2n u2).signals.map stripStamps ∧
    (analyze stratCfg smcCfg inst t1s t1n u1).pending_setups =
      (analyze stratCfg smcCfg inst t2s t2n u2).pending_setups ∧
    (analyze stratCfg smcCfg inst t1s t1n u1).errors =
      (analyze stratCfg smcCfg inst t2s t2n u2).errors := by
  unfold analyze
  dsimp only
  split
  · exact ⟨rfl, rfl, rfl, rfl⟩
  · repeat' split
    all_goals first
      | (exact ⟨rfl,
          (foldl_analyzeStep_strip _ _ _ _ _ _ t1n u1 t2n u2 _
            ([], []) ([], []) rfl rfl).1,
          (foldl_analyzeStep_strip _ _ _ _ _ _ t1n u1 t2n u2 _
            ([], []) ([], []) rfl rfl).2, rfl⟩)
      | exact ⟨rfl, rfl, rfl, rfl⟩

set_option maxRecDepth 100000 in
set_option maxHeartbeats 8000000 in
/-- C2 counterexample: analyze is not a deterministic function of inputs
and configuration alone; with identical inputs, two invocations whose
uuid4 draws differ produce different StrategyResults (the signal ids
differ), refuting byte-identical reproducibility. -/
theorem C2_counterexample :
    (analyze SMC_CONFIG exCfgSmall exInstrument 0 0 "aaaaaaaa").signals.map
      (fun s => s.id) = ["smc_v2_0_aaaaaaaa"] ∧
    (analyze SMC_CONFIG exCfgSmall exInstrument 0 0 "bbbbbbbb").signals.map
      (fun s => s.id) = ["smc_v2_0_bbbbbbbb"] ∧
    analyze SMC_CONFIG exCfgSmall exInstrument 0 0 "aaaaaaaa" ≠
      analyze SMC_CONFIG exCfgSmall exInstrument 0 0 "bbbbbbbb" := by
  have ha : (analyze SMC_CONFIG exCfgSmall exInstrument 0 0 "aaaaaaaa").signals.map
      (fun s => s.id) = ["smc_v2_0_aaaaaaaa"] := by decide
  have hb : (analyze SMC_CONFIG exCfgSmall exInstrument 0 0 "bbbbbbbb").signals.map
      (fun s => s.id) = ["smc_v2_0_bbbbbbbb"] := by decide
  refine ⟨ha, hb, fun h => ?_⟩
  have h2 := congrArg (fun r => r.signals.map (fun s => s.id)) h
  dsimp only at h2
  rw [ha, hb] at h2
  exact absurd h2 (by decide)

/-- C4 counterexample: among two overlapping zones of equal strength, the
one with the SMALLER origin_candle_index (the older zone) is retained, not
the most recently originated one: the reverse=True sort on the key
(strength rank, negated origin index) puts the oldest zone first. -/
theorem C4_counterexample :
    exZoneOldOrigin.strength = exZoneNewOrigin.strength ∧
    exZoneOldOrigin.overlaps_with exZoneNewOrigin = true ∧
    exZoneOldOrigin.origin_candle_index < exZoneNewOrigin.origin_candle_index ∧
    filter_overlapping_zones [exZoneOldOrigin, exZoneNewOrigin]
      = [exZoneOldOrigin] :=
  ⟨rfl, by decide, by decide, by decide⟩

/-- C4 (amended): filter_overlapping_zones sorts by strength rank
descending with the OLDEST origin (smallest origin_candle_index) first
among equal strength, then greedily keeps a zone only if it overlaps no
already-kept zone; no two returned zones have intersecting ranges, and of
two overlapping zones of equal strength the older one is the retained
representative. -/
theorem C4_amended :
    (∀ zones : List Zone, (filter_overlapping_zones zones).Pairwise
      (fun a b => a.overlaps_with b = false)) ∧
    (∀ a b : Zone, a.strength = b.strength → a.overlaps_with b = true →
      a.origin_candle_index ≤ b.origin_candle_index →
      filter_overlapping_zones [a, b] = [a]) := by
  constructor
  · intro zones
    unfold filter_overlapping_zones
    split
    · rename_i hlen
      cases zones with
      | nil => exact List.Pairwise.nil
      | cons z zs =>
        cases zs with
        | nil => exact List.pairwise_singleton _ _
        | cons w ws => simp at hlen
    · exact greedyKeep_foldl_pairwise _ _ List.Pairwise.nil
  · intro a b hs ho hle
    unfold filter_overlapping_zones
    rw [if_neg (by simp)]
    have hab : zoneSortLE a b = true := by
      simp only [zoneSortLE, hs]
      simp [hle]
    have hba : b.overlaps_with a = true := by
      rw [Zone.overlaps_with_symm]; exact ho
    have hsort : sortZones [a, b] = [a, b] := by
      simp [sortZones, insertZone, hab]
    show greedyKeep (sortZones [a, b]) = [a]
    rw [hsort]
    show List.foldl greedyStep [] [a, b] = [a]
    rw [List.foldl_cons, List.foldl_cons, List.foldl_nil]
    have h1 : greedyStep [] a = [a] := by simp [greedyStep]
    rw [h1]
    unfold greedyStep
    rw [if_pos (by simp [hba])]

/-- C4 witness: the amended theorem applied to the two concrete overlapping
equal-strength zones. -/
theorem C4_witness :
    (filter_overlapping_zones [exZoneOldOrigin, exZoneNewOrigin]).Pairwise
      (fun a b => a.overlaps_with b = false) ∧
    filter_overlapping_zones [exZoneOldOrigin, exZoneNewOrigin]
      = [exZoneOldOrigin] :=
  ⟨C4_amended.1 [exZoneOldOrigin, exZoneNewOrigin],
   C4_amended.2 exZoneOldOrigin exZoneNewOrigin rfl (by decide) (by decide)⟩

/-- When the detect_entry price gate passes for a BUY, the stop-loss lies
at or below the entry price. -/
theorem buy_stop_le (zone : Zone) (e : ℚ)
    (h : zone.price_in_zone e = true ∨ priceNearZone zone e = true) :
    entryStop zone .buy ≤ e := by
  unfold entryStop
  rcases h with h | h
  · simp only [Zone.price_in_zone, decide_eq_true_eq] at h
    simp only [Zone.zone_size]
    linarith [h.1, h.2]
  · simp only [priceNearZone, Zone.zone_size, decide_eq_true_eq] at h
    simp only [Zone.zone_size]
    rcases h with h | h
    · have hpos := lt_of_le_of_lt (abs_nonneg (e - zone.top_price)) h
      rw [abs_lt] at h
      linarith [h.1, h.2]
    · have hpos := lt_of_le_of_lt (abs_nonneg (e - zone.bottom_price)) h
      rw [abs_lt] at h
      linarith [h.1, h.2]

/-- When the detect_entry price gate passes for a SELL, the stop-loss lies
at or above the entry price. -/
theorem sell_le_stop (zone : Zone) (e : ℚ)
    (h : zone.price_in_zone e = true ∨ priceNearZone zone e = true) :
    e ≤ entryStop zone .sell := by
  unfold entryStop
  rcases h with h | h
  · simp only [Zone.price_in_zone, decide_eq_true_eq] at h
    simp only [Zone.zone_size]
    linarith [h.1, h.2]
  · simp only [priceNearZone, Zone.zone_size, decide_eq_true_eq] at h
    simp only [Zone.zone_size]
    rcases h with h | h
    · have hpos := lt_of_le_of_lt (abs_nonneg (e - zone.top_price)) h
      rw [abs_lt] at h
      linarith [h.1, h.2]
    · have hpos := lt_of_le_of_lt (abs_nonneg (e - zone.bottom_price)) h
      rw [abs_lt] at h
      linarith [h.1, h.2]

/-- A BUY target that is absent or not above entry fails the Python
truthiness test of the take-profit target branch. -/
theorem targetUsable_buy_none (target : Option ℚ) (e : ℚ)
    (h : target = none ∨ ∀ t, target = some t → t ≤ e) :
    targetUsable .buy e target = false := by
  cases target with
  | none => rfl
  | some t =>
    rcases h with h | h
    · simp at h
    · have hle := h t rfl
      have h2 : ¬(e < t) := not_lt.mpr hle
      simp [targetUsable, h2]

/-- A SELL target that is absent or not below entry fails the Python
truthiness test of the take-profit target branch. -/
theorem targetUsable_sell_none (target : Option ℚ) (e : ℚ)
    (h : target = none ∨ ∀ t, target = some t → e ≤ t) :
    targetUsable .sell e target = false := by
  cases target with
  | none => rfl
  | some t =>
    rcases h with h | h
    · simp at h
    · have hle := h t rfl
      have h2 : ¬(t < e) := not_lt.mpr hle
      simp [targetUsable, h2]

/-- C5 (amended): for every accepted entry with no usable externally
supplied target, the take-profit of a BUY is the nearest bottom_price among
ALL supply zones above the entry price in the full zone set, with no
mitigation filter (symmetrically for SELL the nearest top_price among all
demand zones below entry), and when no such zone exists it is entry plus
(BUY) or minus (SELL) 2.5 x risk with risk = |entry - stop_loss|. -/
theorem C5_amended :
    (∀ (candles : List Candle) (zone : Zone) (target : Option ℚ)
       (zs : List Zone),
      (detect_entry candles zone .buy target zs).has_valid_entry = true →
      (target = none ∨ ∀ t, target = some t → t ≤ lastClose candles) →
      ∃ s, (detect_entry candles zone .buy target zs).setup = some s ∧
        s.entry_price = lastClose candles ∧
        s.stop_loss = entryStop zone .buy ∧
        s.take_profit =
          (let sup := zs.filter fun z =>
             z.type = .supply ∧ lastClose candles < z.bottom_price
           if sup.isEmpty then
             s.entry_price + (5/2) * |s.entry_price - s.stop_loss|
           else pyMin (sup.map (·.bottom_price)))) ∧
    (∀ (candles : List Candle) (zone : Zone) (target : Option ℚ)
       (zs : List Zone),
      (detect_entry candles zone .sell target zs).has_valid_entry = true →
      (target = none ∨ ∀ t, target = some t → lastClose candles ≤ t) →
      ∃ s, (detect_entry candles zone .sell target zs).setup = some s ∧
        s.entry_price = lastClose candles ∧
        s.stop_loss = entryStop zone .sell ∧
        s.take_profit =
          (let dem := zs.filter fun z =>
             z.type = .demand ∧ z.top_price < lastClose candles
           if dem.isEmpty then
             s.entry_price - (5/2) * |s.entry_price - s.stop_loss|
           else pyMax (dem.map (·.top_price)))) := by
  constructor
  · intro candles zone target zs
    unfold detect_entry
    dsimp only
    split
    · intro h _; simp at h
    · split
      · intro h _; simp at h
      · split
        · intro h _; simp at h
        · split
          · intro h _; simp at h
          · intro hv htgt
            rename_i hprice hconf hrr
            have hgate := of_not_not hprice
            have hstop := buy_stop_le zone (lastClose candles) hgate
            refine ⟨_, rfl, rfl, rfl, ?_⟩
            unfold entryTakeProfit
            dsimp only
            rw [targetUsable_buy_none target (lastClose candles) htgt]
            simp only [Bool.false_eq_true, if_false]
            split
            · rw [abs_of_nonneg (by linarith)]
              ring
            · rfl
  · intro candles zone target zs
    unfold detect_entry
    dsimp only
    split
    · intro h _; simp at h
    · split
      · intro h _; simp at h
      · split
        · intro h _; simp at h
        · split
          · intro h _; simp at h
          · intro hv htgt
            rename_i hprice hconf hrr
            have hgate := of_not_not hprice
            have hstop := sell_le_stop zone (lastClose candles) hgate
            refine ⟨_, rfl, rfl, rfl, ?_⟩
            unfold entryTakeProfit
            dsimp only
            rw [targetUsable_sell_none target (lastClose candles) htgt]
            simp only [Bool.false_eq_true, if_false]
            split
            · rw [abs_of_nonpos (by linarith)]
              ring
            · rfl

/-- C5 counterexample: the take-profit zone scan ignores mitigation.  With
a single mitigated supply zone above entry in the full zone set, the claim
predicts the fallback entry + 2.5 x risk = 109.75, but the code returns the
mitigated zone bottom 120. -/
theorem C5_counterexample :
    (detect_entry exEntryCandles exZone .buy none
      [exZone, exSupplyMitigated]).has_valid_entry = true ∧
    (∀ z ∈ [exZone, exSupplyMitigated],
      ¬(z.type = ZoneType.supply ∧ z.mitigated = false ∧
        101 < z.bottom_price)) ∧
    (detect_entry exEntryCandles exZone .buy none
      [exZone, exSupplyMitigated]).setup.map (fun s => s.take_profit)
      = some 120 ∧
    (120 : ℚ) ≠ 101 + (5/2) * |101 - (195/2 : ℚ)| := by
  refine ⟨by decide, by decide, by decide, by decide⟩

/-- C5 witness: the amended theorem applied to the concrete accepted BUY
with no target and no supply zone above entry (the 2.5 x risk fallback). -/
theorem C5_witness :
    ∃ s, (detect_entry exEntryCandles exZone .buy none [exZone]).setup
        = some s ∧
      s.entry_price = lastClose exEntryCandles ∧
      s.stop_loss = entryStop exZone .buy ∧
      s.take_profit =
        (let sup := [exZone].filter fun z =>
           z.type = .supply ∧ lastClose exEntryCandles < z.bottom_price
         if sup.isEmpty then
           s.entry_price + (5/2) * |s.entry_price - s.stop_loss|
         else pyMin (sup.map (·.bottom_price))) :=
  C5_amended.1 exEntryCandles exZone none [exZone] (by decide) (Or.inl rfl)


/-- C6 counterexample: on a window with no nonzero-size swing (but at least
2 swings) the scorer returns 0.5, not 0 as the claim states. -/
theorem C6_counterexample :
    calculate_swing_quality_score exZeroSizeSwings = 1/2 ∧ ((1 : ℚ)/2 ≠ 0) :=
  ⟨by decide, by decide⟩

/-- C6 (amended): over the last 10 swings restricted to those with nonzero
swing_size, calculate_swing_quality_score returns
0.5 + 0.5 x (1 - (max - min)/max) when a sized swing exists, returns 0.5
when at least 2 swings exist but none is sized, and returns 0 when there
are fewer than 2 swing points. -/
theorem C6_amended (sps : List SwingPoint) :
    (sps.length < 2 → calculate_swing_quality_score sps = 0) ∧
    (2 ≤ sps.length →
      (((lastN 10 sps).filter fun s => 0 < s.swing_size).map
          (fun s => s.swing_size) = [] →
        calculate_swing_quality_score sps = 1/2) ∧
      (((lastN 10 sps).filter fun s => 0 < s.swing_size).map
          (fun s => s.swing_size) ≠ [] →
        calculate_swing_quality_score sps =
          1/2 + 1/2 * (1 -
            (pyMax (((lastN 10 sps).filter fun s => 0 < s.swing_size).map
                (fun s => s.swing_size)) -
             pyMin (((lastN 10 sps).filter fun s => 0 < s.swing_size).map
                (fun s => s.swing_size))) /
            pyMax (((lastN 10 sps).filter fun s => 0 < s.swing_size).map
                (fun s => s.swing_size))))) := by
  constructor
  · intro h
    unfold calculate_swing_quality_score
    rw [if_pos h]
  · intro h2
    constructor
    · intro hempty
      unfold calculate_swing_quality_score
      rw [if_neg (by omega)]
      dsimp only
      rw [hempty]
      simp
    · intro hne
      unfold calculate_swing_quality_score
      rw [if_neg (by omega)]
      dsimp only
      have hembool : (((lastN 10 sps).filter fun s => 0 < s.swing_size).map
          (fun s => s.swing_size)).isEmpty = false := by
        cases hl : ((lastN 10 sps).filter fun s => 0 < s.swing_size).map
            (fun s => s.swing_size) with
        | nil => exact absurd hl hne
        | cons x xs => rfl
      rw [hembool]
      simp only [Bool.false_eq_true, if_false]
      have hmax_mem := pyMax_mem _ hne
      have hmax_pos : 0 < pyMax (((lastN 10 sps).filter
          fun s => 0 < s.swing_size).map (fun s => s.swing_size)) := by
        obtain ⟨s, hsmem, hseq⟩ := List.mem_map.1 hmax_mem
        obtain ⟨-, hpos⟩ := List.mem_filter.1 hsmem
        rw [← hseq]
        exact of_decide_eq_true hpos
      rw [if_pos hmax_pos]
      have hminmax := pyMin_le _ _ hmax_mem
      have hfrac : (0 : ℚ) ≤ (pyMax (((lastN 10 sps).filter
            fun s => 0 < s.swing_size).map (fun s => s.swing_size)) -
          pyMin (((lastN 10 sps).filter
            fun s => 0 < s.swing_size).map (fun s => s.swing_size))) /
          pyMax (((lastN 10 sps).filter
            fun s => 0 < s.swing_size).map (fun s => s.swing_size)) :=
        div_nonneg (by linarith) (le_of_lt hmax_pos)
      exact min_eq_right (by linarith)

/-- C6 witness: the amended formula evaluated on two sized swings (sizes 4
and 10, score 0.7). -/
theorem C6_witness :
    calculate_swing_quality_score exSizedSwings =
      1/2 + 1/2 * (1 -
        (pyMax (((lastN 10 exSizedSwings).filter
            fun s => 0 < s.swing_size).map (fun s => s.swing_size)) -
         pyMin (((lastN 10 exSizedSwings).filter
            fun s => 0 < s.swing_size).map (fun s => s.swing_size))) /
        pyMax (((lastN 10 exSizedSwings).filter
            fun s => 0 < s.swing_size).map (fun s => s.swing_size))) :=
  ((C6_amended exSizedSwings).2 (by decide)).2 (by decide)


/-- C7: determine_trend considers only the last 6 swings: it is Bullish iff
at least one HH and one HL are present and HH+HL exceeds LH+LL, Bearish iff
at least one LL and one LH are present and LL+LH exceeds HH+HL, Sideways
otherwise, and Sideways unconditionally below 4 classified swings. -/
theorem C7_trend (candles : List Candle) (sps : List SwingPoint) :
    (sps.length < 4 → determine_trend candles sps = .sideways) ∧
    (4 ≤ sps.length →
      (determine_trend candles sps = .bullish ↔
        1 ≤ (lastN 6 sps).countP (fun s => s.swing_type = some SwingType.HH) ∧
        1 ≤ (lastN 6 sps).countP (fun s => s.swing_type = some SwingType.HL) ∧
        (lastN 6 sps).countP (fun s => s.swing_type = some SwingType.LH) +
            (lastN 6 sps).countP (fun s => s.swing_type = some SwingType.LL) <
          (lastN 6 sps).countP (fun s => s.swing_type = some SwingType.HH) +
            (lastN 6 sps).countP (fun s => s.swing_type = some SwingType.HL)) ∧
      (determine_trend candles sps = .bearish ↔
        1 ≤ (lastN 6 sps).countP (fun s => s.swing_type = some SwingType.LL) ∧
        1 ≤ (lastN 6 sps).countP (fun s => s.swing_type = some SwingType.LH) ∧
        (lastN 6 sps).countP (fun s => s.swing_type = some SwingType.HH) +
            (lastN 6 sps).countP (fun s => s.swing_type = some SwingType.HL) <
          (lastN 6 sps).countP (fun s => s.swing_type = some SwingType.LL) +
            (lastN 6 sps).countP (fun s => s.swing_type = some SwingType.LH)) ∧
      (determine_trend candles sps = .sideways ↔
        ¬(1 ≤ (lastN 6 sps).countP (fun s => s.swing_type = some SwingType.HH) ∧
          1 ≤ (lastN 6 sps).countP (fun s => s.swing_type = some SwingType.HL) ∧
          (lastN 6 sps).countP (fun s => s.swing_type = some SwingType.LH) +
              (lastN 6 sps).countP (fun s => s.swing_type = some SwingType.LL) <
            (lastN 6 sps).countP (fun s => s.swing_type = some SwingType.HH) +
              (lastN 6 sps).countP (fun s => s.swing_type = some SwingType.HL)) ∧
        ¬(1 ≤ (lastN 6 sps).countP (fun s => s.swing_type = some SwingType.LL) ∧
          1 ≤ (lastN 6 sps).countP (fun s => s.swing_type = some SwingType.LH) ∧
          (lastN 6 sps).countP (fun s => s.swing_type = some SwingType.HH) +
              (lastN 6 sps).countP (fun s => s.swing_type = some SwingType.HL) <
            (lastN 6 sps).countP (fun s => s.swing_type = some SwingType.LL) +
              (lastN 6 sps).countP (fun s => s.swing_type = some SwingType.LH)))) := by
  constructor
  · intro h
    unfold determine_trend
    dsimp only
    rw [if_pos h]
  · intro h4
    unfold determine_trend
    dsimp only
    rw [if_neg (by omega)]
    split
    · rename_i h1
      exact ⟨iff_of_true rfl h1, iff_of_false (by simp) (by omega),
        iff_of_false (by simp) (fun hcon => hcon.1 h1)⟩
    · split
      · rename_i h1 h2
        exact ⟨iff_of_false (by simp) h1, iff_of_true rfl h2,
          iff_of_false (by simp) (fun hcon => hcon.2 h2)⟩
      · rename_i h1 h2
        exact ⟨iff_of_false (by simp) h1, iff_of_false (by simp) h2,
          iff_of_true rfl ⟨h1, h2⟩⟩

/-- C7 witness: the trend theorem applied to the concrete classified swing
sequence HH, LH, LH, LL, LL, which is Bearish. -/
theorem C7_witness : determine_trend [] exBearishSwings = .bearish :=
  (((C7_trend [] exBearishSwings).2 (by decide)).2.1).mpr (by decide)

/-- C8: insufficient input data is never an error: below 2 x lookback + 1
candles detect_swing_points returns the empty list; below 10 candles
detect_zones returns the empty ZoneResult with reasoning
"Insufficient candles"; below 5 candles detect_entry returns
has_valid_entry false with reasoning "Insufficient candles". -/
theorem C8_insufficient :
    (∀ (candles : List Candle) (lookback : ℕ),
      candles.length < lookback * 2 + 1 →
      detect_swing_points candles lookback = []) ∧
    (∀ (candles : List Candle) (control : String) (current_price : ℚ)
       (filter_overlaps : Bool), candles.length < 10 →
      detect_zones candles control current_price filter_overlaps =
        ⟨[], [], [], [], ["Insufficient candles"]⟩) ∧
    (∀ (candles : List Candle) (zone : Zone) (direction : SignalDirection)
       (target : Option ℚ) (zs : List Zone), candles.length < 5 →
      detect_entry candles zone direction target zs =
        ⟨false, none, ["Insufficient candles"]⟩) := by
  refine ⟨?_, ?_, ?_⟩
  · intro candles lookback h
    unfold detect_swing_points
    rw [if_pos h]
  · intro candles control current_price filter_overlaps h
    unfold detect_zones
    rw [if_pos h]
  · intro candles zone direction target zs h
    unfold detect_entry
    rw [if_pos h]

/-- C8 witness: the three insufficient-data results on the empty candle
list. -/
theorem C8_witness :
    detect_swing_points [] 5 = [] ∧
    detect_zones [] "neutral" 0 true = ⟨[], [], [], [], ["Insufficient candles"]⟩ ∧
    detect_entry [] exZone .buy none [] = ⟨false, none, ["Insufficient candles"]⟩ :=
  ⟨C8_insufficient.1 [] 5 (by decide),
   C8_insufficient.2.1 [] "neutral" 0 true (by decide),
   C8_insufficient.2.2 [] exZone .buy none [] (by decide)⟩


/-- C9: every accepted refinement returns a new Zone preserving the input
zone type, strength and origin_candle_index but with created_at, touches
and mitigated reset to the dataclass defaults 0, 0 and False, so its
get_age_hours is 0 and its freshness_score is 1 at every current
timestamp, regardless of the original created_at. -/
theorem C9_refine_resets_freshness (major : Zone) (zc rc : List Candle) :
    (refine_zone major zc rc).was_refined = true →
    ∀ z, (refine_zone major zc rc).refined_zone = some z →
      z.type = major.type ∧ z.strength = major.strength ∧
      z.origin_candle_index = major.origin_candle_index ∧
      z.created_at = 0 ∧ z.touches = 0 ∧ z.mitigated = false ∧
      (∀ t : ℤ, z.get_age_hours t = 0) ∧
      (∀ t : ℤ, z.freshness_score t 168 = 1) := by
  unfold refine_zone
  dsimp only
  repeat' split
  all_goals intro hw
  all_goals try simp at hw
  all_goals intro z hz
  all_goals dsimp only at hz
  all_goals rw [Option.some_inj] at hz
  all_goals subst hz
  all_goals
    exact ⟨rfl, rfl, rfl, rfl, rfl, rfl,
      fun t => by simp [Zone.get_age_hours],
      fun t => by norm_num [Zone.freshness_score, Zone.get_age_hours]⟩

/-- C9 witness: the refinement theorem applied to the concrete accepted
refinement, evaluated at the timestamp 999999. -/
theorem C9_witness :
    exRefinedZone.created_at = 0 ∧ exRefinedZone.mitigated = false ∧
    exRefinedZone.get_age_hours 999999 = 0 ∧
    exRefinedZone.freshness_score 999999 168 = 1 :=
  ⟨(C9_refine_resets_freshness exWideZone [] exRefCandles (by decide)
      exRefinedZone (by decide)).2.2.2.1,
   (C9_refine_resets_freshness exWideZone [] exRefCandles (by decide)
      exRefinedZone (by decide)).2.2.2.2.2.1,
   (C9_refine_resets_freshness exWideZone [] exRefCandles (by decide)
      exRefinedZone (by decide)).2.2.2.2.2.2.1 999999,
   (C9_refine_resets_freshness exWideZone [] exRefCandles (by decide)
      exRefinedZone (by decide)).2.2.2.2.2.2.2 999999⟩

/-- C10: when the risk distance |entry - stop_loss| is 0, detect_entry
defines risk_reward_ratio as 0 instead of dividing, the 1.5 gate rejects
the entry, and the result is has_valid_entry false with no setup. -/
theorem C10_zero_risk (candles : List Candle) (zone : Zone)
    (direction : SignalDirection) (target : Option ℚ) (zs : List Zone) :
    |lastClose candles - entryStop zone direction| = 0 →
    (detect_entry candles zone direction target zs).has_valid_entry = false ∧
    (detect_entry candles zone direction target zs).setup = none := by
  intro hrisk
  unfold detect_entry
  dsimp only
  split
  · exact ⟨rfl, rfl⟩
  · split
    · exact ⟨rfl, rfl⟩
    · split
      · exact ⟨rfl, rfl⟩
      · split
        · exact ⟨rfl, rfl⟩
        · rename_i hrr
          exfalso
          apply hrr
          rw [hrisk]
          norm_num [riskReward]

/-- C10 witness: a zero-size zone at the current price is rejected with
no exception. -/
theorem C10_witness :
    (detect_entry exFlatCandles exPointZone .buy none []).has_valid_entry
      = false ∧
    (detect_entry exFlatCandles exPointZone .buy none []).setup = none :=
  C10_zero_risk exFlatCandles exPointZone .buy none [] (by decide)
